import Mathlib

/-!
Verification development for the innovest email transaction-extraction
pipeline.  The Python sources under src/ are shallowly embedded: strings
are lists of characters, regex searches are rendered as explicit scanner
functions with Python leftmost / greedy-with-backtracking semantics for
exactly the patterns the code uses, datetimes are explicit records, and
external effects (IMAP server, Gmail REST service, OAuth token endpoint,
credential store) are parameters of the embedded functions.
-/

namespace Innovest

/-! ## Character and string utilities (Python semantics) -/

/-- Character strings as lists of characters. -/
abbrev Cs := List Char

/-- Lower-cased character code (ASCII), mirroring Python str.lower per char. -/
def lcode (c : Char) : Nat :=
  let n := c.toNat
  if 65 ≤ n && n ≤ 90 then n + 32 else n

/-- Python regex whitespace class (space, tab, newline, return, vtab, formfeed). -/
def isWsC (c : Char) : Bool :=
  let n := c.toNat
  n == 32 || n == 9 || n == 10 || n == 13 || n == 11 || n == 12

def isDigitC (c : Char) : Bool :=
  48 ≤ c.toNat && c.toNat ≤ 57

def isAlphaC (c : Char) : Bool :=
  let n := c.toNat
  (65 ≤ n && n ≤ 90) || (97 ≤ n && n ≤ 122)

def isAlnumC (c : Char) : Bool := isAlphaC c || isDigitC c

/-- Python regex word class: alphanumeric or underscore (ASCII fragment). -/
def isWordC (c : Char) : Bool := isAlnumC c || c.toNat == 95

def isHexC (c : Char) : Bool :=
  let n := lcode c
  (48 ≤ n && n ≤ 57) || (97 ≤ n && n ≤ 102)

def isNewlineC (c : Char) : Bool := c.toNat == 10 || c.toNat == 13

def lowerC (c : Char) : Char :=
  let n := c.toNat
  if 65 ≤ n && n ≤ 90 then Char.ofNat (n + 32) else c

def upperC (c : Char) : Char :=
  let n := c.toNat
  if 97 ≤ n && n ≤ 122 then Char.ofNat (n - 32) else c

def lower (s : Cs) : Cs := s.map lowerC

/-- Python str.strip with no argument (strip whitespace from both ends). -/
def stripWs (s : Cs) : Cs :=
  ((s.dropWhile isWsC).reverse.dropWhile isWsC).reverse

/-- Python str.strip with an explicit character set. -/
def stripSet (bad : Char → Bool) (s : Cs) : Cs :=
  ((s.dropWhile bad).reverse.dropWhile bad).reverse

/-- Substring test (Python in operator on str). -/
def isSubstr (needle : Cs) : Cs → Bool
  | [] => needle.isEmpty
  | c :: cs => needle.isPrefixOf (c :: cs) || isSubstr needle (c :: cs).tail

/-- Case-insensitive substring test: both sides compared lower-cased. -/
def isSubstrCI (needle hay : Cs) : Bool := isSubstr (lower needle) (lower hay)

/-- Python str.splitlines restricted to newline and carriage-return breaks. -/
def splitLinesAux (cur : Cs) : Cs → List Cs
  | [] => if cur.isEmpty then [] else [cur.reverse]
  | c :: cs =>
    if c.toNat == 10 then cur.reverse :: splitLinesAux [] cs
    else if c.toNat == 13 then
      match cs with
      | d :: ds => if d.toNat == 10 then cur.reverse :: splitLinesAux [] ds
                   else cur.reverse :: splitLinesAux [] (d :: ds)
      | [] => [cur.reverse]
    else splitLinesAux (c :: cur) cs

def splitLines (s : Cs) : List Cs := splitLinesAux [] s

/-- Python str.split with no argument (split on whitespace runs, drop empties). -/
def splitWsAux (cur : Cs) : Cs → List Cs
  | [] => if cur.isEmpty then [] else [cur.reverse]
  | c :: cs =>
    if isWsC c then
      (if cur.isEmpty then splitWsAux [] cs else cur.reverse :: splitWsAux [] cs)
    else splitWsAux (c :: cur) cs

def splitWs (s : Cs) : List Cs := splitWsAux [] s

theorem dropWhile_len_le (p : Char → Bool) (l : Cs) :
    (l.dropWhile p).length ≤ l.length := by
  induction l with
  | nil => simp
  | cons c cs ih =>
    by_cases h : p c
    · simp [List.dropWhile, h]; omega
    · simp [List.dropWhile, h]

/-- Collapse runs of whitespace to one space (re.sub of a whitespace run).
The flag records being inside a run already replaced by a space. -/
def collapseWsAux : Bool → Cs → Cs
  | _, [] => []
  | skip, c :: cs =>
    if isWsC c then
      if skip then collapseWsAux true cs else ' ' :: collapseWsAux true cs
    else c :: collapseWsAux false cs

def collapseWs (s : Cs) : Cs := collapseWsAux false s

/-- Greedy run of class characters: returns (run, rest). -/
def takeClass (p : Char → Bool) (s : Cs) : Cs × Cs :=
  (s.takeWhile p, s.dropWhile p)

/-- Python truthiness of an optional string (None and the empty string are falsy). -/
def pyTruthy : Option Cs → Bool
  | none => false
  | some s => !s.isEmpty

def pyTruthyS : Option String → Bool
  | none => false
  | some s => !s.isEmpty

/-! ## Scanner primitives

Python re.search is rendered per pattern: a matcher at a fixed position is a
function consuming a prefix, and scanFirst tries every position left to
right, giving the leftmost match.  Greedy subpatterns take maximal runs and
give characters back only on failure of the rest of the pattern. -/

/-- Case-insensitive literal match (pattern given lower-case); returns rest. -/
def matchCI : Cs → Cs → Option Cs
  | [], s => some s
  | _ :: _, [] => none
  | p :: ps, c :: cs => if lcode p == lcode c then matchCI ps cs else none

/-- Case-sensitive literal match; returns rest. -/
def matchCS : Cs → Cs → Option Cs
  | [], s => some s
  | _ :: _, [] => none
  | p :: ps, c :: cs => if p == c then matchCS ps cs else none

/-- One-or-more whitespace, greedy; returns rest. -/
def wsPlus : Cs → Option Cs
  | [] => none
  | c :: cs => if isWsC c then some (cs.dropWhile isWsC) else none

/-- Zero-or-more whitespace, greedy. -/
def wsStar (s : Cs) : Cs := s.dropWhile isWsC

/-- Leftmost-match search: try the matcher at each suffix, left to right. -/
def scanFirst {α : Type} (f : Cs → Option α) : Cs → Option α
  | [] => f []
  | c :: cs =>
    match f (c :: cs) with
    | some r => some r
    | none => scanFirst f cs

/-- Greedy one-or-more capture of class characters; (capture, rest). -/
def capPlus (cap : Char → Bool) (s : Cs) : Option (Cs × Cs) :=
  let r := takeClass cap s
  if r.1.isEmpty then none else some r

/-- Give class characters back (runRev is the reversed greedy run) until a
one-or-more capture of the capture class succeeds. -/
def backtrackCap (cap : Char → Bool) : Cs → Cs → Option (Cs × Cs)
  | runRev, rest =>
    match capPlus cap rest with
    | some pr => some pr
    | none =>
      match runRev with
      | [] => none
      | c :: rs => backtrackCap cap rs (c :: rest)

/-- Greedy zero-or-more class run followed by a one-or-more capture, with
give-back on failure (models patterns such as a separator class star
followed by a capturing group). -/
def classStarThenCap (cls cap : Char → Bool) (s : Cs) : Option (Cs × Cs) :=
  let (run, rest) := takeClass cls s
  backtrackCap cap run.reverse rest

/-- Greedy one-or-more class run followed by a one-or-more capture, with
give-back on failure down to one class character. -/
def classPlusThenCapAux (cap : Char → Bool) : Cs → Cs → Option (Cs × Cs)
  | runRev, rest =>
    match capPlus cap rest with
    | some pr => some pr
    | none =>
      match runRev with
      | [] => none
      | [_] => none
      | c :: rs => classPlusThenCapAux cap rs (c :: rest)

def classPlusThenCap (cls cap : Char → Bool) (s : Cs) : Option (Cs × Cs) :=
  let (run, rest) := takeClass cls s
  if run.isEmpty then none else classPlusThenCapAux cap run.reverse rest

/-- Greedy capture group immediately before a tail pattern: the capture is a
maximal one-or-more class run such that the tail matches right after it;
characters are given back from the right on failure. -/
def preCapAux {β : Type} (tailM : Cs → Option β) : Cs → Cs → Option (Cs × β)
  | [], _ => none
  | c :: rs, after =>
    match tailM after with
    | some b => some ((c :: rs).reverse, b)
    | none => preCapAux tailM rs (c :: after)

def preCapThen {β : Type} (cls : Char → Bool) (tailM : Cs → Option β)
    (s : Cs) : Option (Cs × β) :=
  let (run, rest) := takeClass cls s
  preCapAux tailM run.reverse rest

/-- Lazy one-or-more capture: shortest class run after which the stop
condition holds on the remainder. -/
def lazyCapUntil (cap : Char → Bool) (stop : Cs → Bool) : Cs → Option (Cs × Cs)
  | [] => none
  | c :: cs =>
    if cap c then
      if stop cs then some ([c], cs)
      else
        match lazyCapUntil cap stop cs with
        | some (t, r) => some (c :: t, r)
        | none => none
    else none

/-- Greedy rest-of-line capture (one or more characters other than newline
and carriage return); (capture, rest). -/
def restOfLine (s : Cs) : Option (Cs × Cs) := capPlus (fun c => !isNewlineC c) s

/-! ## Numbers -/

def digitsToNat (s : Cs) : Nat := s.foldl (fun a c => a * 10 + (c.toNat - 48)) 0

/-- Python float() on the decimal strings produced by the amount regexes
after comma removal: digits, at most one dot; needs at least one digit. -/
def parsePyFloat (s : Cs) : Option ℚ :=
  let intP := s.takeWhile isDigitC
  let rest := s.dropWhile isDigitC
  match rest with
  | [] => if intP.isEmpty then none else some (mkRat (digitsToNat intP) 1)
  | c :: frac =>
    if c == '.' && frac.all isDigitC && !(intP.isEmpty && frac.isEmpty) then
      some (mkRat (digitsToNat intP * 10 ^ frac.length + digitsToNat frac)
        (10 ^ frac.length))
    else none

def digitChar (n : Nat) : Char := Char.ofNat (48 + n % 10)

def natToCsAux : Nat → Nat → Cs → Cs
  | 0, _, acc => acc
  | fuel + 1, n, acc =>
    let acc2 := digitChar (n % 10) :: acc
    if n < 10 then acc2 else natToCsAux fuel (n / 10) acc2

def natToCs (n : Nat) : Cs := natToCsAux (n + 1) n []

/-- Zero-padded two-digit rendering (strftime %d, %m fragments). -/
def pad2 (n : Nat) : Cs := if n < 10 then '0' :: natToCs n else natToCs n

/-- Zero-padded four-digit rendering (strftime %Y fragment). -/
def pad4 (n : Nat) : Cs :=
  if n < 10 then '0' :: '0' :: '0' :: natToCs n
  else if n < 100 then '0' :: '0' :: natToCs n
  else if n < 1000 then '0' :: natToCs n
  else natToCs n

/-! ## Dates and times -/

structure PyDate where
  year : Nat
  month : Nat
  day : Nat
deriving Repr, DecidableEq

structure PyDateTime where
  date : PyDate
  hour : Nat := 0
  minute : Nat := 0
  second : Nat := 0
deriving Repr, DecidableEq

def isLeap (y : Nat) : Bool := (y % 4 == 0 && y % 100 != 0) || y % 400 == 0

def daysInMonth (y m : Nat) : Nat :=
  if m == 2 then (if isLeap y then 29 else 28)
  else if m == 4 || m == 6 || m == 9 || m == 11 then 30
  else 31

/-- One Gregorian day after the given date (timedelta(days=1) on the date part). -/
def addOneDay (d : PyDate) : PyDate :=
  if d.day < daysInMonth d.year d.month then ⟨d.year, d.month, d.day + 1⟩
  else if d.month < 12 then ⟨d.year, d.month + 1, 1⟩
  else ⟨d.year + 1, 1, 1⟩

/-- strftime of a date as YYYY/MM/DD (Gmail query bound rendering). -/
def fmtYmdSlash (d : PyDate) : Cs :=
  pad4 d.year ++ '/' :: pad2 d.month ++ '/' :: pad2 d.day

def monthAbbrev (m : Nat) : Cs :=
  match m with
  | 1 => 'J' :: 'a' :: 'n' :: []
  | 2 => 'F' :: 'e' :: 'b' :: []
  | 3 => 'M' :: 'a' :: 'r' :: []
  | 4 => 'A' :: 'p' :: 'r' :: []
  | 5 => 'M' :: 'a' :: 'y' :: []
  | 6 => 'J' :: 'u' :: 'n' :: []
  | 7 => 'J' :: 'u' :: 'l' :: []
  | 8 => 'A' :: 'u' :: 'g' :: []
  | 9 => 'S' :: 'e' :: 'p' :: []
  | 10 => 'O' :: 'c' :: 't' :: []
  | 11 => 'N' :: 'o' :: 'v' :: []
  | _ => 'D' :: 'e' :: 'c' :: []

/-- strftime of a date as DD-Mon-YYYY (IMAP SINCE / BEFORE rendering). -/
def fmtDMonY (d : PyDate) : Cs :=
  pad2 d.day ++ '-' :: monthAbbrev d.month ++ '-' :: pad4 d.year

/-- strftime with format %Y-%m-%dT00:00:00 (cashapp transaction_date field). -/
def fmtIsoMidnight (dt : PyDateTime) : Cs :=
  pad4 dt.date.year ++ '-' :: pad2 dt.date.month ++ '-' :: pad2 dt.date.day
    ++ ('T' :: '0' :: '0' :: ':' :: '0' :: '0' :: ':' :: '0' :: '0' :: [])

/-- Days since the Unix epoch of a Gregorian date (standard civil-days
computation), used to place parsed timestamps on one integer timeline. -/
def daysFromCivil (yi : Int) (m d : Nat) : Int :=
  let y : Int := if m ≤ 2 then yi - 1 else yi
  let era : Int := (if y ≥ 0 then y else y - 399) / 400
  let yoe : Int := y - era * 400
  let mp : Int := ((m : Int) + 9) % 12
  let doy : Int := (153 * mp + 2) / 5 + (d : Int) - 1
  let doe : Int := yoe * 365 + yoe / 4 - yoe / 100 + doy
  era * 146097 + doe - 719468

def toUtcSeconds (dt : PyDateTime) (offsetSeconds : Int) : Int :=
  daysFromCivil dt.date.year dt.date.month dt.date.day * 86400
    + (dt.hour : Int) * 3600 + (dt.minute : Int) * 60 + (dt.second : Int)
    - offsetSeconds

def parse2d (s : Cs) : Option (Nat × Cs) :=
  match s with
  | a :: b :: r =>
    if isDigitC a && isDigitC b then
      some ((a.toNat - 48) * 10 + (b.toNat - 48), r)
    else none
  | _ => none

def parse4d (s : Cs) : Option (Nat × Cs) := do
  let (hi, r1) ← parse2d s
  let (lo, r2) ← parse2d r1
  pure (hi * 100 + lo, r2)

def expectC (c : Char) : Cs → Option Cs
  | x :: r => if x == c then some r else none
  | [] => none

/-- Python str.replace of Z by +00:00 (applied before fromisoformat). -/
def pyReplaceZ : Cs → Cs
  | [] => []
  | c :: cs =>
    if c == 'Z' then '+' :: '0' :: '0' :: ':' :: '0' :: '0' :: pyReplaceZ cs
    else c :: pyReplaceZ cs

/-- Model of datetime.fromisoformat on YYYY-MM-DD[THH:MM[:SS[.ffffff]]]
[+HH:MM] strings, yielding UTC seconds (naive values are interpreted as
UTC, matching the replace(tzinfo=utc) step in is_token_expired). Returns
none for strings fromisoformat would reject. -/
def parseIsoSeconds (s : Cs) : Option Int := do
  let (y, r1) ← parse4d s
  let r2 ← expectC '-' r1
  let (mo, r3) ← parse2d r2
  let r4 ← expectC '-' r3
  let (d, r5) ← parse2d r4
  if mo < 1 || 12 < mo || d < 1 || daysInMonth y mo < d then none
  else
    match r5 with
    | [] => pure (toUtcSeconds ⟨⟨y, mo, d⟩, 0, 0, 0⟩ 0)
    | sep :: r6 =>
      if sep == 'T' || sep == ' ' then do
        let (h, r7) ← parse2d r6
        let r8 ← expectC ':' r7
        let (mi, r9) ← parse2d r8
        if 23 < h || 59 < mi then none
        else do
          let (sec, r10) ←
            match r9 with
            | ':' :: r => do
              let (sec, ra) ← parse2d r
              if 59 < sec then none
              else
                match ra with
                | '.' :: rb =>
                  let frac := rb.takeWhile isDigitC
                  let rc := rb.dropWhile isDigitC
                  if frac.isEmpty || 6 < frac.length then none else pure (sec, rc)
                | _ => pure (sec, ra)
            | _ => pure (0, r9)
          let dt : PyDateTime := ⟨⟨y, mo, d⟩, h, mi, sec⟩
          match r10 with
          | [] => pure (toUtcSeconds dt 0)
          | sgn :: r11 =>
            if sgn == '+' || sgn == '-' then do
              let (oh, r12) ← parse2d r11
              let r13 ← expectC ':' r12
              let (om, r14) ← parse2d r13
              if r14.isEmpty then
                let off : Int := (oh : Int) * 3600 + (om : Int) * 60
                pure (toUtcSeconds dt (if sgn == '-' then -off else off))
              else none
            else none
      else none

/-! ## OAuth credential lifecycle (oauth_helper.py, email_integration_manager.py) -/

/-- Outcome of the POST to the provider token endpoint (external service). -/
inductive TokenEndpointResult
  | ok (accessToken : String) (expiresIn : Int)
  | httpErr (status : Nat) (bodyText : String)
  | netErr (msg : String)
deriving Repr, DecidableEq

/-- OAuthTokenManager.is_token_expired: true when the expiry is absent or the
current time is within five minutes of (or past) it. -/
def isTokenExpired (expiry : Option Int) (now : Int) : Bool :=
  match expiry with
  | none => true
  | some e => decide (now ≥ e - 300)

/-- OAuthTokenManager.refresh_access_token: (new token, new expiry, error).
The HTTP exchange is the endpoint parameter; on a 200 response the new
expiry is now + expires_in. -/
def refreshAccessToken (clientId clientSecret : String)
    (refreshToken : Option String) (endpoint : TokenEndpointResult)
    (now : Int) : Option String × Option Int × Option String :=
  if !pyTruthyS refreshToken then
    (none, none, some "No refresh token provided")
  else if clientId.isEmpty || clientSecret.isEmpty then
    (none, none, some "Google OAuth credentials not configured")
  else
    match endpoint with
    | .ok tok expiresIn => (some tok, some (now + expiresIn), none)
    | .httpErr st body =>
      (none, none, some ("Failed to refresh token: " ++ toString st ++ " - " ++ body))
    | .netErr msg => (none, none, some ("Exception during token refresh: " ++ msg))

/-- The oauth_token_expiry column holds either a timestamp string or a
datetime value (email_integration_manager lines 136-142 handle both). -/
inductive ExpiryField
  | es (s : String)
  | edt (t : Int)
deriving Repr, DecidableEq

structure EmailIntegration where
  id : Option String
  user_id : Option String
  integration_type : Option String
  oauth_access_token : Option String
  oauth_refresh_token : Option String
  oauth_token_expiry : Option ExpiryField
  email_server : Option String := none
  email_port : Nat := 993
  email_username : Option String := none
  email_key : Option String := none
  email_use_ssl : Bool := true
  is_active : Bool := true
deriving Repr, DecidableEq

def EmailIntegration.isOauth (i : EmailIntegration) : Bool :=
  i.integration_type == some "oauth"

/-- Result of refresh_oauth_token_if_needed, with the token-endpoint call
made observable (exchangeAttempted) and the possibly updated integration. -/
structure RefreshOutcome where
  ok : Bool
  exchangeAttempted : Bool
  integration : EmailIntegration
  storeUpdated : Bool
deriving Repr, DecidableEq

/-- EmailIntegrationManager.refresh_oauth_token_if_needed.  storeOk models
whether the credential-store write succeeds; endpoint models the token
endpoint response. -/
def refreshOauthTokenIfNeeded (clientId clientSecret : String)
    (endpoint : TokenEndpointResult) (storeOk : Bool) (now : Int)
    (integ : EmailIntegration) : RefreshOutcome :=
  if !integ.isOauth then ⟨true, false, integ, false⟩
  else
    let expiry : Option Int :=
      match integ.oauth_token_expiry with
      | none => none
      | some (.es s) => parseIsoSeconds (pyReplaceZ s.data)
      | some (.edt t) => some t
    if !isTokenExpired expiry now then ⟨true, false, integ, false⟩
    else
      match refreshAccessToken clientId clientSecret integ.oauth_refresh_token
          endpoint now with
      | (newTok, newExp, err) =>
        if err.isSome || !pyTruthyS newTok then ⟨false, true, integ, false⟩
        else if storeOk then
          ⟨true, true,
            { integ with oauth_access_token := newTok,
                         oauth_token_expiry := newExp.map ExpiryField.edt },
            true⟩
        else ⟨false, true, integ, false⟩

/-! ## Email messages (email.message.Message at the granularity the
pipeline reads them: header lookup plus one plain-text part and one
optional HTML part) -/

structure EmailMessage where
  fromH : Option String := none
  toH : Option String := none
  subjectH : Option String := none
  dateH : Option String := none
  messageIdH : Option String := none
  textPlain : Option String := none
  htmlPart : Option String := none
deriving Repr, DecidableEq

/-- msg.get(name, default). -/
def getHdrD (h : Option String) (d : String) : String := h.getD d

/-- Minimal html.unescape on the entities the pipeline can meet. -/
def unescapeHtml : Cs → Cs
  | [] => []
  | '&' :: 'a' :: 'm' :: 'p' :: ';' :: r => '&' :: unescapeHtml r
  | '&' :: 'l' :: 't' :: ';' :: r => '<' :: unescapeHtml r
  | '&' :: 'g' :: 't' :: ';' :: r => '>' :: unescapeHtml r
  | '&' :: 'n' :: 'b' :: 's' :: 'p' :: ';' :: r => ' ' :: unescapeHtml r
  | c :: r => c :: unescapeHtml r

/-- re.sub of an HTML tag (open angle, one or more non-close characters,
close angle) by a replacement character; fuel-driven recursion. -/
def subTagsAux (repl : Char) : Nat → Cs → Cs
  | 0, s => s
  | _ + 1, [] => []
  | fuel + 1, c :: r =>
    if c == '<' then
      let inner := r.takeWhile (fun x => !(x == '>'))
      let after := r.dropWhile (fun x => !(x == '>'))
      match after with
      | '>' :: rest =>
        if inner.isEmpty then '<' :: subTagsAux repl fuel r
        else repl :: subTagsAux repl fuel rest
      | _ => '<' :: subTagsAux repl fuel r
    else c :: subTagsAux repl fuel r

def subTags (repl : Char) (s : Cs) : Cs := subTagsAux repl s.length s

/-- BaseParser.extract_email_body: prefer the plain-text part; otherwise
strip tags from the HTML part, unescape, and collapse whitespace. -/
def extractEmailBody (m : EmailMessage) : Cs :=
  match m.textPlain with
  | some b => b.data
  | none =>
    match m.htmlPart with
    | some h => stripWs (collapseWs (unescapeHtml (subTags ' ' h.data)))
    | none => []

/-! ## Gmail API client (gmail_api_client.py) -/

/-- The users.messages.list request issued to the Gmail service. -/
structure GmailRequest where
  q : String
  maxResults : Nat
deriving Repr, DecidableEq

/-- search_emails_by_sender (lines 69-80): query from:<sender>, maxResults
limit if limit else 100 (Python truthiness: None and 0 both fall back). -/
def gmailSenderRequest (sender : String) (limit : Option Nat) : GmailRequest :=
  { q := "from:" ++ sender,
    maxResults := match limit with
      | some l => if l == 0 then 100 else l
      | none => 100 }

/-- search_emails_by_sender_date_range query construction (lines 131-149):
after:<start>, and when an end date is given, before:<end> where a same-day
range advances the end by one day. -/
def gmailDateRangeQuery (sender : String) (startD : PyDateTime)
    (endD : Option PyDateTime) : String :=
  let q := "from:" ++ sender ++ " after:" ++ String.mk (fmtYmdSlash startD.date)
  match endD with
  | none => q
  | some e =>
    if startD.date = e.date then
      q ++ " before:" ++ String.mk (fmtYmdSlash (addOneDay e.date))
    else
      q ++ " before:" ++ String.mk (fmtYmdSlash e.date)

/-- search_emails_by_sender_date_range request (lines 155-159): maxResults
limit if limit else 500. -/
def gmailDateRangeRequest (sender : String) (startD : PyDateTime)
    (endD : Option PyDateTime) (limit : Option Nat) : GmailRequest :=
  { q := gmailDateRangeQuery sender startD endD,
    maxResults := match limit with
      | some l => if l == 0 then 500 else l
      | none => 500 }

/-- The Gmail service as an external collaborator: a list request returns
message references, each fetched reference decodes to a message or fails. -/
structure GmailService where
  list : GmailRequest → List String
  fetchRaw : String → Option EmailMessage

def gmailFetchLoop (svc : GmailService) : List String → List EmailMessage
  | [] => []
  | i :: is =>
    match svc.fetchRaw i with
    | some m => m :: gmailFetchLoop svc is
    | none => gmailFetchLoop svc is

def gmailSearchBySender (svc : GmailService) (sender : String)
    (limit : Option Nat) : List EmailMessage :=
  gmailFetchLoop svc (svc.list (gmailSenderRequest sender limit))

def gmailSearchBySenderDateRange (svc : GmailService) (sender : String)
    (startD : PyDateTime) (endD : Option PyDateTime)
    (limit : Option Nat) : List EmailMessage :=
  gmailFetchLoop svc (svc.list (gmailDateRangeRequest sender startD endD limit))

/-! ## IMAP client (email_client.py).  The IMAP server is a parameter: a
search takes a criteria string to a list of id tokens, a fetch takes an id
to a message.  Each search function returns the yielded messages paired
with the ids it issued a mark-as-read flag store for. -/

structure ImapConn where
  search : String → List String
  fetch : String → Option EmailMessage

/-- Python list[-n:] (last n elements). -/
def lastN {α : Type} (n : Nat) (l : List α) : List α := l.drop (l.length - n)

def quoteArg (s : String) : String := "\x22" ++ s ++ "\x22"

/-- Fetch loop that marks every successfully fetched message as read
(search_emails_by_subject lines 218-223, fetch_unread_emails 371-376). -/
def fetchLoopMark (conn : ImapConn) : List String → List EmailMessage × List String
  | [] => ([], [])
  | i :: is =>
    match conn.fetch i with
    | some m => (m :: (fetchLoopMark conn is).1, i :: (fetchLoopMark conn is).2)
    | none => fetchLoopMark conn is

/-- Fetch loop that never issues a flag store (search_emails_by_sender
lines 501-508, search_emails_by_sender_date_range lines 548-555). -/
def fetchLoopNoMark (conn : ImapConn) : List String → List EmailMessage × List String
  | [] => ([], [])
  | i :: is =>
    match conn.fetch i with
    | some m => (m :: (fetchLoopNoMark conn is).1, (fetchLoopNoMark conn is).2)
    | none => fetchLoopNoMark conn is

/-- EmailClient.search_emails_by_subject. -/
def searchEmailsBySubject (conn : ImapConn) (text : String)
    (limit : Option Nat) : List EmailMessage × List String :=
  let ids := conn.search ("SUBJECT " ++ quoteArg text)
  let ids :=
    match limit with
    | some l => if l == 0 then ids else lastN l ids
    | none => ids
  fetchLoopMark conn ids

def emailContainsText (m : EmailMessage) (text : String) : Bool :=
  isSubstr (lower text.data) (lower (getHdrD m.subjectH "").data)
    || isSubstr (lower text.data) (lower (extractEmailBody m))

/-- The early-stop test of search_emails_by_content (limit truthy and
enough matches found). -/
def contentStop (limit : Option Nat) (found : Nat) : Bool :=
  match limit with
  | some l => l != 0 && found + 1 ≥ l
  | none => false

/-- Inner loop of search_emails_by_content: fetch, filter by content, yield
and mark read, stopping early once limit matches were found. -/
def contentLoop (conn : ImapConn) (text : String) (limit : Option Nat)
    (found : Nat) : List String → List EmailMessage × List String
  | [] => ([], [])
  | i :: is =>
    match conn.fetch i with
    | some m =>
      if emailContainsText m text then
        if contentStop limit found then ([m], [i])
        else
          (m :: (contentLoop conn text limit (found + 1) is).1,
           i :: (contentLoop conn text limit (found + 1) is).2)
      else contentLoop conn text limit found is
    | none => contentLoop conn text limit found is

/-- EmailClient.search_emails_by_content (lines 243-295): with no limit the
scan silently restricts to the last 100 ids of the whole mailbox. -/
def searchEmailsByContent (conn : ImapConn) (text : String)
    (limit : Option Nat) : List EmailMessage × List String :=
  let ids := conn.search "ALL"
  let ids :=
    match limit with
    | some l => if l == 0 then lastN 100 ids else lastN l ids
    | none => lastN 100 ids
  contentLoop conn text limit 0 ids

/-- The candidate id set search_emails_by_content scans (before content
filtering). -/
def contentScanIds (conn : ImapConn) (limit : Option Nat) : List String :=
  let ids := conn.search "ALL"
  match limit with
  | some l => if l == 0 then lastN 100 ids else lastN l ids
  | none => lastN 100 ids

def keepDigits (s : String) : String := String.mk (s.data.filter isDigitC)

/-- EmailClient.search_emails_by_sender (lines 436-511): quoted search with
unquoted and domain fallbacks, digit cleanup, tail slice under a positive
limit, then a fetch loop with no flag store. -/
def searchEmailsBySender (conn : ImapConn) (sender : String)
    (limit : Option Nat) : List EmailMessage × List String :=
  let ids0 := conn.search ("FROM " ++ quoteArg sender)
  let ids1 := if ids0.isEmpty then conn.search ("FROM " ++ sender) else ids0
  let ids2 :=
    if ids1.isEmpty then
      let domain :=
        if isSubstr ['@'] sender.data then
          String.mk ((sender.data.dropWhile (fun c => !(c == '@'))).tail)
        else sender
      conn.search ("FROM " ++ quoteArg ("@" ++ domain))
    else ids1
  let cleaned := (ids2.map keepDigits).filter (fun s => !s.isEmpty)
  let sliced :=
    match limit with
    | some l => if l == 0 then cleaned else lastN l cleaned
    | none => cleaned
  fetchLoopNoMark conn sliced

/-- EmailClient.search_emails_by_sender_date_range (lines 514-559): SINCE /
BEFORE criteria at day granularity, then a fetch loop with no flag store. -/
def searchEmailsBySenderDateRange (conn : ImapConn) (sender : String)
    (startD : PyDateTime) (endD : Option PyDateTime) :
    List EmailMessage × List String :=
  let crit :=
    match endD with
    | some e =>
      "FROM " ++ quoteArg sender ++ " SINCE " ++ String.mk (fmtDMonY startD.date)
        ++ " BEFORE " ++ String.mk (fmtDMonY e.date)
    | none => "FROM " ++ quoteArg sender ++ " SINCE " ++ String.mk (fmtDMonY startD.date)
  let ids := (conn.search crit).filter (fun s => !(stripWs s.data).isEmpty)
  fetchLoopNoMark conn ids

/-! ## Shared amount extraction scanners (cashapp_parser.py lines 19-22 and
generic_payment_parser.py lines 20-25; searches are case sensitive as in
the source, which passes no flag to re.search here) -/

/-- Capture for the decimal class: one or more digits or commas, an
optional dot, then digits. -/
def numCap (s : Cs) : Option (Cs × Cs) := do
  let (d1, r1) ← capPlus (fun c => isDigitC c || c == ',') s
  match r1 with
  | '.' :: r2 =>
    let (d2, r3) := takeClass isDigitC r2
    pure (d1 ++ '.' :: d2, r3)
  | _ => pure (d1, r1)

/-- Dollar-sign amount pattern. -/
def amtP1 (s : Cs) : Option Cs := do
  let r ← expectC '$' s
  let (cap, _) ← numCap r
  pure cap

/-- number USD amount pattern. -/
def amtP2 (s : Cs) : Option Cs := do
  let (cap, r1) ← numCap s
  let _ ← matchCS "USD".data (wsStar r1)
  pure cap

def sepColonWs (c : Char) : Bool := c == ':' || isWsC c

/-- Amount: prefixed amount pattern (generic parser only). -/
def amtP3 (s : Cs) : Option Cs := do
  let r1 ← matchCS "Amount".data s
  let (run, r2) := takeClass sepColonWs r1
  if run.isEmpty then none
  else
    let r3 := match r2 with
      | '$' :: r => r
      | _ => r2
    let (cap, _) ← numCap r3
    pure cap

/-- Total: prefixed amount pattern (generic parser only). -/
def amtP4 (s : Cs) : Option Cs := do
  let r1 ← matchCS "Total".data s
  let (run, r2) := takeClass sepColonWs r1
  if run.isEmpty then none
  else
    let r3 := match r2 with
      | '$' :: r => r
      | _ => r2
    let (cap, _) ← numCap r3
    pure cap

/-- float() after comma removal. -/
def tryFloat (cap : Cs) : Option ℚ := parsePyFloat (cap.filter (fun c => !(c == ',')))

/-- One pattern step of the amount loop: a match whose float conversion
fails falls through to the next pattern. -/
def amtTry (found : Option Cs) (next : Option ℚ) : Option ℚ :=
  match found with
  | some cap =>
    match tryFloat cap with
    | some a => some a
    | none => next
  | none => next

/-- CashAppParser._extract_amount. -/
def cashExtractAmount (body subject : Cs) : Option ℚ :=
  let content := body ++ ' ' :: subject
  amtTry (scanFirst amtP1 content) (amtTry (scanFirst amtP2 content) none)

/-- GenericPaymentParser._extract_amount. -/
def genExtractAmount (body subject : Cs) : Option ℚ :=
  let content := body ++ ' ' :: subject
  amtTry (scanFirst amtP1 content)
    (amtTry (scanFirst amtP2 content)
      (amtTry (scanFirst amtP3 content)
        (amtTry (scanFirst amtP4 content) none)))

/-! ## Generic payment parser (generic_payment_parser.py) -/

def paymentKeywords : List Cs :=
  ["payment", "paid", "sent you", "you sent", "received",
   "transaction", "money", "transfer", "deposit",
   "$", "usd", "amount", "total"].map String.data

/-- GenericPaymentParser.can_parse: reject Cash App senders, then accept
when at least two payment keywords occur in subject or body. -/
def genCanParse (m : EmailMessage) : Bool :=
  let fromA := lower (getHdrD m.fromH "").data
  let subject := lower (getHdrD m.subjectH "").data
  let body := lower (extractEmailBody m)
  if isSubstr "cash@square.com".data fromA then false
  else
    2 ≤ (paymentKeywords.filter
      (fun k => isSubstr k subject || isSubstr k body)).length

/-- Name class of the generic sender patterns: letters, whitespace, dot,
apostrophe. -/
def genNameCls (c : Char) : Bool :=
  isAlphaC c || isWsC c || c == '.' || c.toNat == 39

/-- Name class of the generic recipient patterns 2 and 3 (no dot). -/
def genNameClsND (c : Char) : Bool :=
  isAlphaC c || isWsC c || c.toNat == 39

/-- you \s+ sent \s+ dollar pattern. -/
def youSentDollarAt (s : Cs) : Option Unit := do
  let r1 ← matchCI "you".data s
  let r2 ← wsPlus r1
  let r3 ← matchCI "sent".data r2
  let r4 ← wsPlus r3
  let _ ← expectC '$' r4
  pure ()

/-- sent \s+ you \s+ dollar pattern. -/
def sentYouDollarAt (s : Cs) : Option Unit := do
  let r1 ← matchCI "sent".data s
  let r2 ← wsPlus r1
  let r3 ← matchCI "you".data r2
  let r4 ← wsPlus r3
  let _ ← expectC '$' r4
  pure ()

/-- you \s+ sent pattern (fallback check). -/
def youSentAt (s : Cs) : Option Unit := do
  let r1 ← matchCI "you".data s
  let r2 ← wsPlus r1
  let _ ← matchCI "sent".data r2
  pure ()

/-- sent \s+ you pattern (fallback check). -/
def sentYouAt (s : Cs) : Option Unit := do
  let r1 ← matchCI "sent".data s
  let r2 ← wsPlus r1
  let _ ← matchCI "you".data r2
  pure ()

/-- Sub of the carriage-return? newline last-line pattern anchored at end
of string: removes the final newline-started segment (all matches of the
sub, evaluated left to right on the original string). -/
def dropLastSegment (s : Cs) : Cs :=
  let rev := s.reverse
  let fromNl := rev.dropWhile (fun c => !(c == '\n'))
  match fromNl with
  | '\n' :: rest =>
    (match rest with
     | '\r' :: r2 => r2.reverse
     | _ => rest.reverse)
  | _ => s

def subNlTail (s : Cs) : Cs :=
  if s.any (fun c => c == '\n') then
    match s.reverse with
    | '\n' :: rest =>
      dropLastSegment (match rest with
        | '\r' :: r2 => r2.reverse
        | _ => rest.reverse)
    | _ => dropLastSegment s
  else s

/-- Strip a trailing run of characters outside word / whitespace /
apostrophe / hyphen. -/
def stripTrailJunk (s : Cs) : Cs :=
  (s.reverse.dropWhile
    (fun c => !(isWordC c || isWsC c || c.toNat == 39 || c == '-'))).reverse

/-- GenericPaymentParser._clean_name. -/
def genCleanName (name : Cs) : Cs :=
  if name.isEmpty then name
  else
    let n1 := stripWs (subNlTail name)
    let n2 := stripWs (stripTrailJunk n1)
    let n3 := stripWs (collapseWs n2)
    let unwanted : List Cs :=
      ["view", "receipt", "click", "here", "visit", "url", "http"].map String.data
    if unwanted.any (fun w => isSubstr w (lower n3)) then
      match splitWs n3 with
      | [] => n3
      | w :: _ => w
    else n3

/-- Validation applied after each generic sender/recipient pattern. -/
def genNamePost (cap : Cs) : Option Cs :=
  let s := genCleanName (stripWs cap)
  if !s.isEmpty && 2 < s.length && s.length < 100 then some s else none

/-- Pattern loop: first pattern whose match passes the post check wins; a
failed check falls through to the next pattern. -/
def chainPats (post : Cs → Option Cs) : List (Cs → Option Cs) → Cs → Option Cs
  | [], _ => none
  | p :: ps, content =>
    match scanFirst p content with
    | some cap =>
      match post cap with
      | some r => some r
      | none => chainPats post ps content
    | none => chainPats post ps content

/-- name+ \s+ sent \s+ you. -/
def genSenP1 (s : Cs) : Option Cs :=
  (preCapThen genNameCls
    (fun r => do
      let r1 ← wsPlus r
      let r2 ← matchCI "sent".data r1
      let r3 ← wsPlus r2
      let _ ← matchCI "you".data r3
      pure ()) s).map Prod.fst

/-- sent \s+ by \s+ name+. -/
def genSenP2 (s : Cs) : Option Cs := do
  let r1 ← matchCI "sent".data s
  let r2 ← wsPlus r1
  let r3 ← matchCI "by".data r2
  let r4 ← wsPlus r3
  let (cap, _) ← capPlus genNameCls r4
  pure cap

/-- from \s+ name+. -/
def genSenP3 (s : Cs) : Option Cs := do
  let r1 ← matchCI "from".data s
  let r2 ← wsPlus r1
  let (cap, _) ← capPlus genNameCls r2
  pure cap

/-- Sender sep+ name+. -/
def genSenP4 (s : Cs) : Option Cs := do
  let r1 ← matchCI "sender".data s
  let (cap, _) ← classPlusThenCap sepColonWs genNameCls r1
  pure cap

/-- Paid \s+ by sep+ name+. -/
def genSenP5 (s : Cs) : Option Cs := do
  let r1 ← matchCI "paid".data s
  let r2 ← wsPlus r1
  let r3 ← matchCI "by".data r2
  let (cap, _) ← classPlusThenCap sepColonWs genNameCls r3
  pure cap

/-- GenericPaymentParser._extract_sender. -/
def genExtractSender (body subject : Cs) : Option Cs :=
  let content := body ++ ' ' :: subject
  if (scanFirst youSentDollarAt content).isSome then some "You".data
  else chainPats genNamePost [genSenP1, genSenP2, genSenP3, genSenP4, genSenP5] content

/-- You \s+ sent \s+ dollar number \s+ to \s+ name+. -/
def genRecP1 (s : Cs) : Option Cs := do
  let r1 ← matchCI "you".data s
  let r2 ← wsPlus r1
  let r3 ← matchCI "sent".data r2
  let r4 ← wsPlus r3
  let r5 ← expectC '$' r4
  let (_, r6) ← numCap r5
  let r7 ← wsPlus r6
  let r8 ← matchCI "to".data r7
  let r9 ← wsPlus r8
  let (cap, _) ← capPlus genNameCls r9
  pure cap

/-- sent \s+ to \s+ name+. -/
def genRecP2 (s : Cs) : Option Cs := do
  let r1 ← matchCI "sent".data s
  let r2 ← wsPlus r1
  let r3 ← matchCI "to".data r2
  let r4 ← wsPlus r3
  let (cap, _) ← capPlus genNameClsND r4
  pure cap

/-- to \s+ name+. -/
def genRecP3 (s : Cs) : Option Cs := do
  let r1 ← matchCI "to".data s
  let r2 ← wsPlus r1
  let (cap, _) ← capPlus genNameClsND r2
  pure cap

/-- Recipient sep+ name+. -/
def genRecP4 (s : Cs) : Option Cs := do
  let r1 ← matchCI "recipient".data s
  let (cap, _) ← classPlusThenCap sepColonWs genNameCls r1
  pure cap

/-- Paid \s+ to sep+ name+. -/
def genRecP5 (s : Cs) : Option Cs := do
  let r1 ← matchCI "paid".data s
  let r2 ← wsPlus r1
  let r3 ← matchCI "to".data r2
  let (cap, _) ← classPlusThenCap sepColonWs genNameCls r3
  pure cap

/-- GenericPaymentParser._extract_recipient. -/
def genExtractRecipient (body subject : Cs) : Option Cs :=
  let content := body ++ ' ' :: subject
  if (scanFirst sentYouDollarAt content).isSome then some "You".data
  else chainPats genNamePost [genRecP1, genRecP2, genRecP3, genRecP4, genRecP5] content

def txnCls (c : Char) : Bool := isAlnumC c || c == '-'

def txnClsHash (c : Char) : Bool := txnCls c || c == '#'

/-- hash txn-chars+. -/
def genTxnP1 (s : Cs) : Option Cs := do
  let r ← expectC '#' s
  let (cap, _) ← capPlus txnCls r
  pure cap

/-- Transaction \s+ (number or ID or hash) sep+ capture. -/
def genTxnP2 (s : Cs) : Option Cs := do
  let r1 ← matchCI "transaction".data s
  let r2 ← wsPlus r1
  let r3 ←
    (matchCI "number".data r2).orElse fun _ =>
      (matchCI "id".data r2).orElse fun _ => matchCS "#".data r2
  let (cap, _) ← classPlusThenCap sepColonWs txnClsHash r3
  pure cap

/-- Reference sep+ capture. -/
def genTxnP3 (s : Cs) : Option Cs := do
  let r1 ← matchCI "reference".data s
  let (cap, _) ← classPlusThenCap sepColonWs txnCls r1
  pure cap

/-- Confirmation sep+ capture. -/
def genTxnP4 (s : Cs) : Option Cs := do
  let r1 ← matchCI "confirmation".data s
  let (cap, _) ← classPlusThenCap sepColonWs txnCls r1
  pure cap

/-- GenericPaymentParser._extract_transaction_number: first matching
pattern wins; a leading hash is added when absent. -/
def genExtractTxnNumber (body subject : Cs) : Option Cs :=
  let content := body ++ ' ' :: subject
  let post : Cs → Option Cs := fun cap =>
    let t := stripWs cap
    some (if t.head? == some '#' then t else '#' :: t)
  chainPats post [genTxnP1, genTxnP2, genTxnP3, genTxnP4] content

def isLowerAlphaC (c : Char) : Bool := 97 ≤ c.toNat && c.toNat ≤ 122

/-- GenericPaymentParser._detect_provider. -/
def genDetectProvider (m : EmailMessage) : Cs :=
  let fromA := lower (getHdrD m.fromH "").data
  if isSubstr "venmo".data fromA then "venmo".data
  else if isSubstr "zelle".data fromA then "zelle".data
  else if isSubstr "paypal".data fromA then "paypal".data
  else if isSubstr "square".data fromA then "square".data
  else
    let atDom : Cs → Option Cs := fun s => do
      let r ← expectC '@' s
      let (cap, _) ← capPlus
        (fun c => isLowerAlphaC c || isDigitC c || c == '.' || c == '-') r
      pure cap
    match scanFirst atDom fromA with
    | some domain => domain.takeWhile (fun c => !(c == '.'))
    | none => "unknown".data

/-- payment \s+ request pattern. -/
def paymentRequestAt (s : Cs) : Option Unit := do
  let r1 ← matchCS "payment".data s
  let r2 ← wsPlus r1
  let _ ← matchCS "request".data r2
  pure ()

/-- GenericPaymentParser._determine_transaction_type (content lower-cased
first, patterns searched case-sensitively on it). -/
def genDetermineType (body subject : Cs) : Cs :=
  let content := lower (body ++ ' ' :: subject)
  if (scanFirst youSentAt content).isSome then "sent".data
  else if (scanFirst sentYouAt content).isSome then "received".data
  else if (scanFirst paymentRequestAt content).isSome then "request".data
  else if isSubstr "refund".data content then "refund".data
  else "transfer".data

/-- The keyword alternation of the description pattern, then separators and
a rest-of-line capture. -/
def genDescAt (s : Cs) : Option Cs :=
  let tryKw : String → Option Cs := fun w =>
    match matchCI w.data s with
    | some r =>
      (classPlusThenCap sepColonWs (fun c => !isNewlineC c) r).map Prod.fst
    | none => none
  (tryKw "note").orElse fun _ =>
    (tryKw "memo").orElse fun _ =>
      (tryKw "description").orElse fun _ =>
        (tryKw "for").orElse fun _ => tryKw "message"

/-- GenericPaymentParser._extract_description. -/
def genExtractDescription (body subject : Cs) : Option Cs :=
  let content := body ++ ' ' :: subject
  match scanFirst genDescAt content with
  | some cap =>
    let d := stripWs cap
    if !d.isEmpty && 3 < d.length && d.length < 200 then some d else none
  | none => none

/-- Month abbreviation lookup for header date parsing. -/
def monthOfAbbrev (s : Cs) : Option Nat :=
  let l := lower s
  if l == "jan".data then some 1 else if l == "feb".data then some 2
  else if l == "mar".data then some 3 else if l == "apr".data then some 4
  else if l == "may".data then some 5 else if l == "jun".data then some 6
  else if l == "jul".data then some 7 else if l == "aug".data then some 8
  else if l == "sep".data then some 9 else if l == "oct".data then some 10
  else if l == "nov".data then some 11 else if l == "dec".data then some 12
  else none

def parse1or2d (s : Cs) : Option (Nat × Cs) :=
  match s with
  | a :: b :: r =>
    if isDigitC a && isDigitC b then some ((a.toNat - 48) * 10 + (b.toNat - 48), r)
    else if isDigitC a then some (a.toNat - 48, b :: r)
    else none
  | [a] => if isDigitC a then some (a.toNat - 48, []) else none
  | [] => none

/-- Model of header date parsing (dateutil / parsedate on RFC-2822 shaped
Date: header values such as Sat, 23 Aug 2025 15:31:18 +0000); offsets are
ignored at this granularity.  none for values the library rejects. -/
def parseRfcDate (s : Cs) : Option PyDateTime := do
  let t := stripWs s
  -- optional weekday and comma
  let t :=
    match t with
    | a :: b :: c :: ',' :: r =>
      if isAlphaC a && isAlphaC b && isAlphaC c then wsStar r else t
    | _ => t
  let (d, r1) ← parse1or2d t
  let r2 := wsStar r1
  let (monCs, r3) := takeClass isAlphaC r2
  let mo ← monthOfAbbrev monCs
  let r4 := wsStar r3
  let (y, r5) ← parse4d r4
  let r6 := wsStar r5
  if d < 1 || daysInMonth y mo < d then none
  else
    match parse2d r6 with
    | some (h, ra) =>
      (do
        let rb ← expectC ':' ra
        let (mi, rc) ← parse2d rb
        let rd ← expectC ':' rc
        let (sec, _) ← parse2d rd
        if 23 < h || 59 < mi || 59 < sec then none
        else pure (⟨⟨y, mo, d⟩, h, mi, sec⟩ : PyDateTime))
    | none => pure (⟨⟨y, mo, d⟩, 0, 0, 0⟩ : PyDateTime)

/-- GenericPaymentParser._extract_email_date: parse the Date header, else
datetime.now(). -/
def genExtractEmailDate (m : EmailMessage) (now : PyDateTime) : PyDateTime :=
  match m.dateH with
  | some s => (parseRfcDate s.data).getD now
  | none => now

/-- str() of the parsed float amounts (finite decimals): integer part, a
dot, and the fraction digits with trailing zeros removed but at least one
digit kept. -/
def ratMulPow10 (q : ℚ) (k : Nat) : ℚ :=
  mkRat (q.num * ((10 ^ k : Nat) : Int)) q.den

def findPow10 (q : ℚ) : Option Nat :=
  (List.range 13).find? (fun k => (ratMulPow10 q k).den == 1)

def padLeftZeros (k : Nat) (s : Cs) : Cs :=
  if s.length < k then List.replicate (k - s.length) '0' ++ s else s

def pyShowFloat (q : ℚ) : Cs :=
  match findPow10 q with
  | some k =>
    let n := (ratMulPow10 q k).num.toNat
    let ip := n / 10 ^ k
    let fp := n % 10 ^ k
    let fracRaw := padLeftZeros k (natToCs fp)
    let frac := (fracRaw.reverse.dropWhile (fun c => c == '0')).reverse
    let frac := if k == 0 || frac.isEmpty then ['0'] else frac
    natToCs ip ++ '.' :: frac
  | none => natToCs 0

/-- str() of a datetime (YYYY-MM-DD HH:MM:SS). -/
def pyShowDateTime (dt : PyDateTime) : Cs :=
  pad4 dt.date.year ++ '-' :: pad2 dt.date.month ++ '-' :: pad2 dt.date.day
    ++ ' ' :: pad2 dt.hour ++ ':' :: pad2 dt.minute ++ ':' :: pad2 dt.second

/-- The md5 hex digest of a preimage string, kept symbolic: hashing is a
machine-level operation; the data flow (which string was hashed) is what
the claims are about. -/
structure Md5Hex where
  preimage : String
deriving Repr, DecidableEq

/-- GenericPaymentParser._generate_transaction_id: md5 of
sender_recipient_amount_date. -/
def genGenerateTransactionId (sender recipient : Cs) (amount : ℚ)
    (dt : PyDateTime) : Md5Hex :=
  ⟨String.mk (sender ++ '_' :: recipient ++ '_' :: pyShowFloat amount
      ++ '_' :: pyShowDateTime dt)⟩

/-- The Transaction model row the generic parser constructs
(models/transaction.py columns the constructor receives). -/
structure GenTransaction where
  transaction_id : Md5Hex
  sender : String
  recipient : String
  amount : ℚ
  currency : String
  transaction_type : String
  status : String
  description : Option String
  email_subject : String
  email_date : PyDateTime
  source_provider : String
  raw_email_data : String
  deposited_to : String
  cashapp_transaction_number : Option String
deriving Repr, DecidableEq

/-- GenericPaymentParser.parse_transaction. -/
def genParseTransaction (now : PyDateTime) (m : EmailMessage) :
    Option GenTransaction :=
  let subject := getHdrD m.subjectH ""
  let body := extractEmailBody m
  match genExtractAmount body subject.data with
  | none => none
  | some amount =>
    if amount == 0 then none
    else
      let content := body ++ ' ' :: subject.data
      let sender :=
        match genExtractSender body subject.data with
        | some s => s
        | none =>
          if (scanFirst youSentAt content).isSome then "You".data
          else "Unknown".data
      let recipient :=
        match genExtractRecipient body subject.data with
        | some r => r
        | none =>
          if (scanFirst sentYouAt content).isSome then "You".data
          else "Unknown".data
      let txnNum := genExtractTxnNumber body subject.data
      let ttype := genDetermineType body subject.data
      let emailDate := genExtractEmailDate m now
      let tid := genGenerateTransactionId sender recipient amount emailDate
      some
        { transaction_id := tid
          sender := String.mk sender
          recipient := String.mk recipient
          amount := amount
          currency := "USD"
          transaction_type := String.mk ttype
          status := "completed"
          description := (genExtractDescription body subject.data).map String.mk
          email_subject := subject
          email_date := emailDate
          source_provider := String.mk (genDetectProvider m)
          raw_email_data := String.mk (body.take 1000)
          deposited_to := "Unknown"
          cashapp_transaction_number := txnNum.map String.mk }

/-! ## Cash App parser (cashapp_parser.py) -/

/-- re.sub of the HTML tag pattern by an arbitrary replacement string. -/
def subTagsLAux (repl : Cs) : Nat → Cs → Cs
  | 0, s => s
  | _ + 1, [] => []
  | fuel + 1, c :: r =>
    if c == '<' then
      let inner := r.takeWhile (fun x => !(x == '>'))
      let after := r.dropWhile (fun x => !(x == '>'))
      match after with
      | '>' :: rest =>
        if inner.isEmpty then '<' :: subTagsLAux repl fuel r
        else repl ++ subTagsLAux repl fuel rest
      | _ => '<' :: subTagsLAux repl fuel r
    else c :: subTagsLAux repl fuel r

def subTagsL (repl : Cs) (s : Cs) : Cs := subTagsLAux repl s.length s

/-- Replace every nonempty run of class characters by a single space.
The flag records being inside a run already replaced by a space. -/
def replRunsAux (cls : Char → Bool) : Bool → Cs → Cs
  | _, [] => []
  | skip, c :: cs =>
    if cls c then
      if skip then replRunsAux cls true cs else ' ' :: replRunsAux cls true cs
    else c :: replRunsAux cls false cs

/-- Replace every run of two or more class characters by a single space;
single class characters stay.  The flag records being inside a run already
replaced by a space. -/
def squashRunsAux (cls : Char → Bool) : Bool → Cs → Cs
  | _, [] => []
  | skip, c :: cs =>
    if cls c then
      if skip then squashRunsAux cls true cs
      else
        match cs with
        | [] => [c]
        | d :: _ =>
          if cls d then ' ' :: squashRunsAux cls true cs
          else c :: squashRunsAux cls false cs
    else c :: squashRunsAux cls false cs

def wsOrHyphen (c : Char) : Bool := isWsC c || c == '-'

def tabCrLf (c : Char) : Bool := c.toNat == 9 || c.toNat == 13 || c.toNat == 10

/-- The footer-token removal sub: Privacy Policy, Terms, Support, or an
http(s) URL, each at word boundaries, removed (case-insensitively). -/
def tryJunkTok (s : Cs) : Option Cs :=
  let lit : String → Option Cs := fun w =>
    match matchCI w.data s with
    | some r =>
      match r with
      | [] => some []
      | c :: _ => if isWordC c then none else some r
    | none => none
  match lit "privacy policy" with
  | some r => some r
  | none =>
    match lit "terms" with
    | some r => some r
    | none =>
      match lit "support" with
      | some r => some r
      | none =>
        match matchCI "http".data s with
        | some r1 =>
          let r2 := match r1 with
            | 's' :: r => r
            | 'S' :: r => r
            | _ => r1
          match matchCS "://".data r2 with
          | some r3 =>
            let (run, rest) := takeClass (fun c => !isWsC c) r3
            -- the trailing word boundary gives back non-word characters
            let back := run.reverse.takeWhile (fun c => !isWordC c)
            if run.length ≤ back.length then none
            else some (back.reverse ++ rest)
          | none => none
        | none => none

def remJunkAux : Bool → Nat → Cs → Cs
  | _, 0, s => s
  | _, _ + 1, [] => []
  | prevWord, fuel + 1, c :: cs =>
    if !prevWord then
      match tryJunkTok (c :: cs) with
      | some rest => remJunkAux false fuel rest
      | none => c :: remJunkAux (isWordC c) fuel cs
    else c :: remJunkAux (isWordC c) fuel cs

def remJunkTokens (s : Cs) : Cs := remJunkAux false s.length s

def nameCharCls (c : Char) : Bool :=
  isWordC c || isWsC c || c == '.' || c.toNat == 39 || c == '-'

/-- CashAppParser._clean_name. -/
def cashCleanName (name : Cs) : Cs :=
  if name.isEmpty then name
  else
    let n1 := stripWs name
    let n2 := stripWs (subTagsL [] n1)
    let n3 := stripWs (subNlTail n2)
    let n4 := stripWs (squashRunsAux wsOrHyphen false n3)
    let n5 := stripWs (replRunsAux tabCrLf false n4)
    let n6 := stripWs (remJunkTokens n5)
    let n7 := stripWs (n6.map (fun c => if nameCharCls c then c else ' '))
    stripWs (collapseWs n7)

def hasTwoAlpha : Cs → Bool
  | a :: b :: r => (isAlphaC a && isAlphaC b) || hasTwoAlpha (b :: r)
  | _ => false

/-- CashAppParser._is_valid_name. -/
def cashIsValidName : Option Cs → Bool
  | none => false
  | some name0 =>
    if name0.isEmpty then false
    else
      let name := stripWs name0
      if isSubstr ['@'] name then false
      else if !hasTwoAlpha name then false
      else decide (2 ≤ name.length)

/-- email.utils.parseaddr at the granularity of display-name <addr> versus
bare addr values: (display, addr). -/
def parseAddr (v : Cs) : Cs × Cs :=
  if isSubstr ['<'] v then
    let display := stripWs (v.takeWhile (fun c => !(c == '<')))
    let display := stripSet (fun c => c.toNat == 34) display
    let afterLt := (v.dropWhile (fun c => !(c == '<'))).tail
    let addr := afterLt.takeWhile (fun c => !(c == '>'))
    (display, stripWs addr)
  else ([], stripWs v)

def dotUnderscore (c : Char) : Bool := c == '.' || c.toNat == 95

/-- CashAppParser._parse_display_name_from_header. -/
def cashParseDisplayFromHeader (v : Option String) : Option Cs :=
  match v with
  | none => none
  | some hv =>
    if hv.isEmpty then none
    else
      let (display0, addr) := parseAddr hv.data
      let display := stripWs display0
      if cashIsValidName (some display) then some (cashCleanName display)
      else if !addr.isEmpty && isSubstr ['@'] addr then
        let localPart := addr.takeWhile (fun c => !(c == '@'))
        let localCand := stripWs (replRunsAux dotUnderscore false localPart)
        if cashIsValidName (some localCand) then some (cashCleanName localCand)
        else none
      else none

/-- Lazy any-skip then Sender label then separators then a rest-of-line
capture (the trailing part of the payment-between pattern). -/
def pbSenderPart (s : Cs) : Option Cs :=
  scanFirst (fun t => do
    let r1 ← matchCI "sender".data t
    let (cap, _) ← classStarThenCap sepColonWs (fun c => !isNewlineC c) r1
    pure cap) s

def pbTryHere (rest : Cs) : Option (Cs × Cs) :=
  let line := rest.takeWhile (fun c => !isNewlineC c)
  let after := rest.drop line.length
  preCapAux pbSenderPart line.reverse after

def pbGiveBack : Cs → Cs → Option (Cs × Cs)
  | runRev, rest =>
    match pbTryHere rest with
    | some r => some r
    | none =>
      match runRev with
      | [] => none
      | c :: rs => pbGiveBack rs (c :: rest)

/-- Separators then the greedy recipient rest-of-line capture constrained
so a Sender part still matches later (regex backtracking). -/
def pbCapWithTail (s : Cs) : Option (Cs × Cs) :=
  let (run, rest) := takeClass sepColonWs s
  pbGiveBack run.reverse rest

/-- The payment-between pattern of _extract_payment_between: leftmost
Payment between label, then the first Recipient label with a line capture,
then the first Sender label with a line capture. -/
def pbAt (s : Cs) : Option (Cs × Cs) := do
  let r1 ← matchCI "payment".data s
  let r2 ← wsPlus r1
  let r3 ← matchCI "between".data r2
  scanFirst (fun t => do
    let u1 ← matchCI "recipient".data t
    pbCapWithTail u1) r3

/-- CashAppParser._extract_payment_between: (recipient, sender), both
cleaned. -/
def cashExtractPaymentBetween (content : Cs) : Option (Cs × Cs) :=
  match scanFirst pbAt content with
  | some (recipCap, senderCap) =>
    some (cashCleanName (stripWs recipCap), cashCleanName (stripWs senderCap))
  | none => none

def ownerSkipTokens : List Cs :=
  ["http://", "https://", "cash.app", "to report a problem",
   "transaction details", "payment between", "today", "yesterday"].map String.data

def ownerWordCls (c : Char) : Bool :=
  isAlphaC c || c == '.' || c.toNat == 39 || c == '-'

/-- One word of the owner name-line pattern: a letter then one or more
letters, dots, apostrophes or hyphens. -/
def ownerWordOk (w : Cs) : Bool :=
  match w with
  | c :: rest => isAlphaC c && !rest.isEmpty && rest.all ownerWordCls
  | [] => false

def ownerLineOk (line : Cs) : Bool :=
  let ws := splitWs line
  2 ≤ ws.length && ws.length ≤ 4 && ws.all ownerWordOk

/-- CashAppParser._extract_account_owner: first of the top ten nonempty
lines that looks like a 2-4 word capitalised name, cleaned, rejecting
emails and single letters. -/
def cashAccountOwnerLoop : List Cs → Option Cs
  | [] => none
  | l :: ls =>
    let low := lower l
    if ownerSkipTokens.any (fun t => isSubstr t low) then cashAccountOwnerLoop ls
    else if ownerLineOk l then
      let cand := cashCleanName l
      if isSubstr ['@'] cand || cand.length ≤ 1 then cashAccountOwnerLoop ls
      else some cand
    else cashAccountOwnerLoop ls

def cashExtractAccountOwner (body subject : Cs) : Option Cs :=
  let content := body ++ '\n' :: subject
  let lns := ((splitLines content).map stripWs).filter (fun l => !l.isEmpty)
  cashAccountOwnerLoop (lns.take 10)

/-- The strict payment-between pattern of _extract_sender and
_extract_recipient: the recipient capture is lazy up to a newline, the
final sender capture is a lazy single character. -/
def pbStrictTail (s : Cs) : Option Cs :=
  scanFirst (fun t => do
    let r1 ← matchCI "sender".data t
    let (cap, _) ← classStarThenCap sepColonWs (fun c => !isNewlineC c) r1
    pure (cap.take 1)) s

def pbStrictAt (s : Cs) : Option (Cs × Cs) := do
  let r1 ← matchCI "payment".data s
  let r2 ← wsPlus r1
  let r3 ← matchCI "between".data r2
  scanFirst (fun t => do
    let u1 ← matchCI "recipient".data t
    let u2 := (takeClass sepColonWs u1).2
    let (cap1, v1) ← lazyCapUntil (fun c => !isNewlineC c)
      (fun rest => (rest.takeWhile isWsC).any isNewlineC) u2
    let cap2 ← pbStrictTail v1
    pure (cap1, cap2)) r3

/-- Amount fragment with a mandatory digit after the dot. -/
def numCap2 (s : Cs) : Option (Cs × Cs) := do
  let (d1, r1) ← capPlus (fun c => isDigitC c || c == ',') s
  match r1 with
  | '.' :: r2 =>
    match capPlus isDigitC r2 with
    | some (d2, r3) => pure (d1 ++ '.' :: d2, r3)
    | none => pure (d1, r1)
  | _ => pure (d1, r1)

def nameHyCls (c : Char) : Bool :=
  isAlphaC c || isWsC c || c == '.' || c.toNat == 39 || c == '-'

/-- Does the trailing receipt-phrase pattern (anchored at line end) match
at this suffix. -/
def trailReceiptAt (s : Cs) : Bool :=
  let t1 := s.dropWhile isWsC
  let t2 := match t1 with
    | '.' :: r => r.dropWhile isWsC
    | _ => t1
  match (matchCI "to view your receipt".data t2).orElse
      (fun _ => matchCI "view your receipt".data t2) with
  | some rest =>
    let after := rest.dropWhile (fun c => !isNewlineC c)
    after.isEmpty || after == ['\n']
  | none => false

def findTrailReceipt : Cs → Option Nat
  | [] => none
  | s@(_ :: rest) =>
    if trailReceiptAt s then some s.length else findTrailReceipt rest

/-- Sub removing the trailing receipt phrase, followed by strip. -/
def remTrailReceipt (s : Cs) : Cs :=
  match findTrailReceipt s with
  | some k => stripWs (s.take (s.length - k))
  | none => stripWs s

/-- Sub removing a leading receipt token, followed by strip. -/
def remLeadReceipt (s : Cs) : Cs :=
  match matchCI "receipt".data s with
  | some r => stripWs (wsStar r)
  | none => stripWs s

/-- You were sent dollar-amount by name (lazy capture up to dot, comma,
a to-view phrase, or end). -/
def ywsbStop (rest : Cs) : Bool :=
  rest.isEmpty || rest.head? == some '.' || rest.head? == some ',' ||
  (match wsPlus rest with
   | some r => (matchCI "to view".data r).isSome
   | none => false)

def ywsbAt (s : Cs) : Option Cs := do
  let r1 ← matchCI "you".data s
  let r2 ← wsPlus r1
  let r3 ← matchCI "were".data r2
  let r4 ← wsPlus r3
  let r5 ← matchCI "sent".data r4
  let r6 ← wsPlus r5
  let r7 ← expectC '$' r6
  let (_, r8) ← numCap2 r7
  let r9 ← wsPlus r8
  let r10 ← matchCI "by".data r9
  let r11 ← wsPlus r10
  let (cap, _) ← lazyCapUntil nameHyCls ywsbStop r11
  pure cap

def cashSenderS2 (content : Cs) : Option Cs :=
  match scanFirst ywsbAt content with
  | some cap =>
    let s := cashCleanName (remLeadReceipt (remTrailReceipt (stripWs cap)))
    if !s.isEmpty && 1 < s.length then some s else none
  | none => none

/-- Sender: rest-of-line. -/
def senExactP1 (s : Cs) : Option Cs := do
  let r1 ← matchCI "sender:".data s
  let (cap, _) ← classStarThenCap isWsC (fun c => !isNewlineC c) r1
  pure cap

/-- Paid by: rest-of-line. -/
def senExactP2 (s : Cs) : Option Cs := do
  let r1 ← matchCI "paid".data s
  let r2 ← wsPlus r1
  let r3 ← matchCI "by:".data r2
  let (cap, _) ← classStarThenCap isWsC (fun c => !isNewlineC c) r3
  pure cap

def cashSenderPostExact (cap : Cs) : Option Cs :=
  let s := cashCleanName (remLeadReceipt (stripWs cap))
  if !s.isEmpty && 1 < s.length then some s else none

def cashSenderS3 (content : Cs) : Option Cs :=
  chainPats cashSenderPostExact [senExactP1, senExactP2] content

/-- You sent dollar-amount (existence). -/
def youSentNumAt (s : Cs) : Option Unit := do
  let r1 ← matchCI "you".data s
  let r2 ← wsPlus r1
  let r3 ← matchCI "sent".data r2
  let r4 ← wsPlus r3
  let r5 ← expectC '$' r4
  let _ ← numCap2 r5
  pure ()

/-- From separators+ capture up to an open angle or newline. -/
def fromHdrPat (s : Cs) : Option Cs := do
  let r1 ← matchCI "from".data s
  let (cap, _) ← classPlusThenCap sepColonWs
    (fun c => !(c == '<') && !isNewlineC c) r1
  pure cap

def cashSenderS4 (content : Cs) : Option Cs :=
  if (scanFirst youSentNumAt content).isSome then
    match scanFirst fromHdrPat content with
    | some cap =>
      let cand := cashCleanName (stripWs cap)
      if !cand.isEmpty &&
          !(["cash app", "noreply", "noreply@cash.app"].map String.data).contains
            (lower cand) then
        some cand
      else some "You".data
    | none => some "You".data
  else none

/-- name+ then sent you dollar. -/
def cashSenP1 (s : Cs) : Option Cs :=
  (preCapThen nameHyCls (fun r => do
    let r1 ← wsPlus r
    let r2 ← matchCI "sent".data r1
    let r3 ← wsPlus r2
    let r4 ← matchCI "you".data r3
    let r5 ← wsPlus r4
    let _ ← expectC '$' r5
    pure ()) s).map Prod.fst

/-- name+ then paid you dollar. -/
def cashSenP2 (s : Cs) : Option Cs :=
  (preCapThen nameHyCls (fun r => do
    let r1 ← wsPlus r
    let r2 ← matchCI "paid".data r1
    let r3 ← wsPlus r2
    let r4 ← matchCI "you".data r3
    let r5 ← wsPlus r4
    let _ ← expectC '$' r5
    pure ()) s).map Prod.fst

/-- name+ then requested payment. -/
def cashSenP3 (s : Cs) : Option Cs :=
  (preCapThen nameHyCls (fun r => do
    let r1 ← wsPlus r
    let r2 ← matchCI "requested".data r1
    let r3 ← wsPlus r2
    let _ ← matchCI "payment".data r3
    pure ()) s).map Prod.fst

/-- Sender separators+ name+. -/
def cashSenP4 (s : Cs) : Option Cs := do
  let r1 ← matchCI "sender".data s
  let (cap, _) ← classPlusThenCap sepColonWs nameHyCls r1
  pure cap

/-- From separators+ name+. -/
def cashSenP5 (s : Cs) : Option Cs := do
  let r1 ← matchCI "from".data s
  let (cap, _) ← classPlusThenCap sepColonWs nameHyCls r1
  pure cap

def cashSenderPost5 (cap : Cs) : Option Cs :=
  let s := cashCleanName (stripWs cap)
  if !s.isEmpty && 2 < s.length && s.length < 200 then some s else none

def cashSenderS5 (content : Cs) : Option Cs :=
  chainPats cashSenderPost5 [cashSenP1, cashSenP2, cashSenP3, cashSenP4, cashSenP5]
    content

def cashSenderPost6 (cap : Cs) : Option Cs :=
  let s := cashCleanName (stripWs cap)
  if !s.isEmpty &&
      !(["you", "your", "me"].map String.data).contains (lower s) &&
      2 < s.length && s.length < 200 then
    some s
  else none

/-- Sender: whitespace* name+ (general pattern list, literal colon). -/
def genSenColon (s : Cs) : Option Cs := do
  let r1 ← matchCI "sender:".data s
  let (cap, _) ← classStarThenCap isWsC genNameCls r1
  pure cap

def cashSenderS6 (content : Cs) : Option Cs :=
  chainPats cashSenderPost6 [genSenP3, genSenP2, genSenP1, genSenColon] content

/-- CashAppParser._extract_sender. -/
def cashExtractSender (body subject : Cs) : Cs :=
  let content := body ++ ' ' :: subject
  match scanFirst pbStrictAt content with
  | some (_, senderCap) => cashCleanName (stripWs senderCap)
  | none =>
    (((((cashSenderS2 content).orElse fun _ => cashSenderS3 content).orElse
        fun _ => cashSenderS4 content).orElse
          fun _ => cashSenderS5 content).orElse
            fun _ => cashSenderS6 content).getD "Unknown".data

/-- You sent dollar-amount to recipient (lazy capture up to a for-token,
end, or newline). -/
def ystStop (rest : Cs) : Bool :=
  (match wsPlus rest with
   | some r => (matchCI "for".data r).isSome
   | none => false)
  || (rest.dropWhile isWsC).isEmpty
  || (rest.takeWhile isWsC).any (fun c => c == '\n')

def youSentToAt (s : Cs) : Option Cs := do
  let r1 ← matchCI "you".data s
  let r2 ← wsPlus r1
  let r3 ← matchCI "sent".data r2
  let r4 ← wsPlus r3
  let r5 ← expectC '$' r4
  let (_, r6) ← numCap2 r5
  let r7 ← wsPlus r6
  let r8 ← matchCI "to".data r7
  let r9 ← wsPlus r8
  let (cap, _) ← lazyCapUntil (fun c => !isNewlineC c) ystStop r9
  pure cap

def recipYouSent (content : Cs) : Option Cs :=
  match scanFirst youSentToAt content with
  | some cap =>
    let r := cashCleanName (stripWs cap)
    if !r.isEmpty then some r else none
  | none => none

/-- nonblank+ then sent you dollar (existence only: recipient is You). -/
def sentYouDollarTail (s : Cs) : Option Unit := do
  let r1 ← wsPlus s
  let r2 ← matchCI "sent".data r1
  let r3 ← wsPlus r2
  let r4 ← matchCI "you".data r3
  let r5 ← wsPlus r4
  let _ ← expectC '$' r5
  pure ()

def recipSentYou (content : Cs) : Option Cs :=
  if (scanFirst
      (fun s => preCapThen (fun c => !isNewlineC c) sentYouDollarTail s)
      content).isSome then
    some "You".data
  else none

/-- Recipient separators* rest-of-line. -/
def recipP1 (s : Cs) : Option Cs := do
  let r1 ← matchCI "recipient".data s
  let (cap, _) ← classStarThenCap sepColonWs (fun c => !isNewlineC c) r1
  pure cap

/-- Paid to separators* rest-of-line. -/
def recipP2 (s : Cs) : Option Cs := do
  let r1 ← matchCI "paid".data s
  let r2 ← wsPlus r1
  let r3 ← matchCI "to".data r2
  let (cap, _) ← classStarThenCap sepColonWs (fun c => !isNewlineC c) r3
  pure cap

/-- line-part then received dollar. -/
def recvStop (rest : Cs) : Bool :=
  (do
    let r1 ← wsPlus rest
    let r2 ← matchCI "received".data r1
    let r3 ← wsPlus r2
    expectC '$' r3).isSome

def recipP3 (s : Cs) : Option Cs :=
  (lazyCapUntil (fun c => !isNewlineC c) recvStop s).map Prod.fst

/-- sent to rest-of-line. -/
def recipP4 (s : Cs) : Option Cs := do
  let r1 ← matchCI "sent".data s
  let r2 ← wsPlus r1
  let r3 ← matchCI "to".data r2
  let r4 ← wsPlus r3
  let (cap, _) ← capPlus (fun c => !isNewlineC c) r4
  pure cap

/-- paid rest-of-line. -/
def recipP5 (s : Cs) : Option Cs := do
  let r1 ← matchCI "paid".data s
  let r2 ← wsPlus r1
  let (cap, _) ← capPlus (fun c => !isNewlineC c) r2
  pure cap

def recipCashPost (cap : Cs) : Option Cs :=
  let r0 := stripWs cap
  if !r0.isEmpty && 2 < r0.length then
    let r2 := cashCleanName (remTrailReceipt r0)
    if !(["you", "your", "me", "cash", "balance", "view", "receipt",
          "visit", "url"].map String.data).contains (lower r2) then
      some r2
    else none
  else none

def recipCashPats (content : Cs) : Option Cs :=
  chainPats recipCashPost [recipP1, recipP2, recipP3, recipP4, recipP5] content

/-- Recipient: whitespace* name+ (general recipient list, literal colon). -/
def genRecColon (s : Cs) : Option Cs := do
  let r1 ← matchCI "recipient:".data s
  let (cap, _) ← classStarThenCap isWsC genNameClsND r1
  pure cap

def recipGenPost (cap : Cs) : Option Cs :=
  let r0 := stripWs cap
  if !r0.isEmpty &&
      !(["you", "your", "me"].map String.data).contains (lower r0) &&
      2 < r0.length then
    some (cashCleanName (remTrailReceipt r0))
  else none

def recipGeneral (content : Cs) : Option Cs :=
  chainPats recipGenPost [genRecP3, genRecP2, genRecColon] content

/-- CashAppParser._extract_recipient. -/
def cashExtractRecipient (body subject : Cs) : Option Cs :=
  let content := body ++ ' ' :: subject
  match scanFirst pbStrictAt content with
  | some (recipCap, _) => some (cashCleanName (stripWs recipCap))
  | none =>
    ((recipYouSent content).orElse fun _ =>
      (recipSentYou content).orElse fun _ =>
        (recipCashPats content).orElse fun _ => recipGeneral content)

/-! ### CashAppParser._extract_transaction_number -/

def hexN : Nat → Cs → Option Cs
  | 0, s => some s
  | n + 1, c :: cs => if isHexC c then hexN n cs else none
  | _ + 1, [] => none

/-- The 36-character 8-4-4-4-12 hex UUID shape the extractor rejects. -/
def uuidShaped (t : Cs) : Bool :=
  (do
    let s1 ← hexN 8 t
    let s2 ← expectC '-' s1
    let s3 ← hexN 4 s2
    let s4 ← expectC '-' s3
    let s5 ← hexN 4 s4
    let s6 ← expectC '-' s5
    let s7 ← hexN 4 s6
    let s8 ← expectC '-' s7
    let s9 ← hexN 12 s8
    if s9.isEmpty then some () else none).isSome

/-- The stray-value list the labelled path ignores. -/
def txnJunk (t : Cs) : Bool :=
  t == "|".data || t == "||".data || t == "|||".data || t == "|  |".data

/-- strip with the explicit space tab cr lf dot colon semicolon quote set. -/
def stripTxnChars (t : Cs) : Cs :=
  stripSet (fun c => c == ' ' || c.toNat == 9 || c.toNat == 13 || c.toNat == 10
    || c == '.' || c == ':' || c == ';' || c.toNat == 34) t

/-- Prefix a hash when the value starts with d or D and lacks one. -/
def dHashPrefix (c : Cs) : Cs :=
  match c with
  | 'D' :: _ => '#' :: c
  | 'd' :: _ => '#' :: c
  | _ => c

def txnLabelKw (s : Cs) : Option Cs :=
  (matchCI "transaction".data s).orElse fun _ =>
    (matchCI "payment".data s).orElse fun _ => matchCI "confirmation".data s

def txnLabelKind (s : Cs) : Option Cs :=
  (matchCI "number".data s).orElse fun _ =>
    (match matchCI "no".data s with
     | some r => some ((expectC '.' r).getD r)
     | none => none).orElse fun _ => matchCI "id".data s

def sepColonWsHy (c : Char) : Bool := c == ':' || isWsC c || c == '-'

/-- Same-line (label) pattern: keyword, kind word, separator class, then a
rest-of-line capture (separators include newline, so a value on the next
line is captured too). -/
def txnStage1At (s : Cs) : Option Cs := do
  let r1 ← txnLabelKw s
  let r2 ← wsPlus r1
  let r3 ← txnLabelKind r2
  let (cap, _) ← classStarThenCap sepColonWsHy (fun c => !isNewlineC c) r3
  pure cap

def txnStage1 (raw : Cs) : Option Cs := scanFirst txnStage1At raw

/-- Pipe-delimited hash-D token (the dot in the pattern cannot cross a
newline); ci selects the ignore-case variant used in the fallback list. -/
def pipeTxnScan (ci : Bool) : Cs → Option Cs
  | [] => none
  | '#' :: d :: rest =>
    if d == 'D' || (ci && d == 'd') then
      match capPlus txnCls rest with
      | some (cap, r2) =>
        if (r2.takeWhile (fun x => !isNewlineC x)).any (fun x => x == '|') then
          some ('#' :: d :: cap)
        else pipeTxnScan ci (d :: rest)
      | none => pipeTxnScan ci (d :: rest)
    else pipeTxnScan ci (d :: rest)
  | c :: cs => if isNewlineC c then none else pipeTxnScan ci cs

def pipeTxnAt (ci : Bool) (s : Cs) : Option Cs := do
  let r ← expectC '|' s
  pipeTxnScan ci r

def rstripWs (s : Cs) : Cs := (s.reverse.dropWhile isWsC).reverse

/-- A line of pipes and whitespace only. -/
def pipeOnly (c : Cs) : Bool :=
  match c with
  | '|' :: r => r.all (fun x => isWsC x || x == '|')
  | _ => false

/-- hash? d-or-D hyphen token+ shape, anchored to the whole candidate. -/
def dPat (c : Cs) : Bool :=
  let c2 := match c with
    | '#' :: r => r
    | _ => c
  match c2 with
  | d :: '-' :: rest => (d == 'D' || d == 'd') && !rest.isEmpty && rest.all txnCls
  | _ => false

/-- Case-sensitive search for a hash-D token inside a candidate line. -/
def hashDFind (c : Cs) : Option Cs :=
  scanFirst (fun s =>
    match s with
    | '#' :: 'D' :: rest => (capPlus txnCls rest).map (fun pr => '#' :: 'D' :: pr.1)
    | _ => none) c

/-- Next-line loop body over the following candidate lines. -/
def txnStage2Inner : List Cs → Option Cs
  | [] => none
  | l :: ls =>
    let c := stripTxnChars (subTagsL [] (stripWs l))
    if c.isEmpty || txnJunk c || pipeOnly c then txnStage2Inner ls
    else if dPat c then some (dHashPrefix c)
    else
      match hashDFind c with
      | some t => some t
      | none =>
        if 1 < c.length && !(c.head? == some '|') then some c
        else txnStage2Inner ls

def txnStage2Outer : List Cs → Option Cs
  | [] => none
  | l :: ls =>
    if isSubstr "transaction".data (lower l) && isSubstr "number".data (lower l) then
      match txnStage2Inner (ls.take 9) with
      | some r => some r
      | none => txnStage2Outer ls
    else txnStage2Outer ls

def txnStage2 (raw : Cs) : Option Cs :=
  txnStage2Outer ((splitLines raw).map rstripWs)

/-- hash D token (whole match, case-insensitive flag). -/
def s3p1 (s : Cs) : Option Cs :=
  match s with
  | '#' :: d :: rest =>
    if d == 'D' || d == 'd' then
      (capPlus txnCls rest).map (fun pr => '#' :: d :: pr.1)
    else none
  | _ => none

/-- payments path id of length at least six. -/
def s3p2 (s : Cs) : Option Cs := do
  let r1 ← matchCI "/payments/".data s
  let (cap, _) ← capPlus txnCls r1
  if cap.length < 6 then none else pure cap

/-- hash token+. -/
def s3p3 (s : Cs) : Option Cs := do
  let r ← expectC '#' s
  let (cap, _) ← capPlus txnCls r
  pure cap

/-- Lines 730-731: prefix a hash when the candidate starts with d or D. -/
def stage3Fix (t : Cs) : Cs :=
  match t with
  | 'D' :: _ => '#' :: t
  | 'd' :: _ => '#' :: t
  | _ => t

/-- One pattern step of the fallback list: a found candidate that is
UUID-shaped falls through to the next pattern. -/
def stage3Step (found : Option Cs) (next : Option Cs) : Option Cs :=
  match found with
  | some t => if uuidShaped t then next else some (stage3Fix t)
  | none => next

/-- Fallback pattern list (lines 714-733). -/
def txnStage3 (content : Cs) : Option Cs :=
  stage3Step (scanFirst s3p1 content)
    (stage3Step (scanFirst s3p2 content)
      (stage3Step (scanFirst s3p3 content)
        (stage3Step (scanFirst (pipeTxnAt true) content) none)))

/-- Permissive single-line label pattern (lines 736-745); a UUID-shaped
value makes the whole extraction return None. -/
def txnStage4At (s : Cs) : Option Cs := do
  let r1 ← matchCI "transaction".data s
  let r2 ← wsPlus r1
  let r3 ← matchCI "number".data r2
  let (cap, _) ← classStarThenCap
    (fun c => c == ':' || isWsC c || c == '#') txnClsHash r3
  pure cap

def txnStage4 (content : Cs) : Option (Option Cs) :=
  match scanFirst txnStage4At content with
  | some t0 =>
    let t := stripWs t0
    if uuidShaped t then some none
    else
      some (some (if !(t.head? == some '#') && (t.head? == some 'D' || t.head? == some 'd')
        then '#' :: t else t))
  | none => none

/-- URL-embedded transaction id (lines 748-755); a UUID-shaped id is
skipped, reaching the final return None. -/
def txnStage5At (s : Cs) : Option Cs := do
  let r1 ← matchCI "/transaction".data s
  let r2 := match r1 with
    | 's' :: r => r
    | 'S' :: r => r
    | _ => r1
  let r3 ← expectC '/' r2
  let (cap, _) ← capPlus txnCls r3
  if cap.length < 6 then none else pure cap

def txnStage5 (content : Cs) : Option Cs :=
  match scanFirst txnStage5At content with
  | some t => if uuidShaped t then none else some t
  | none => none

/-- Stages two to five chained in source order. -/
def txnStages2to5 (content raw : Cs) : Option Cs :=
  match txnStage2 raw with
  | some r => some r
  | none =>
    match txnStage3 content with
    | some r => some r
    | none =>
      match txnStage4 content with
      | some o => o
      | none => txnStage5 content

/-- CashAppParser._extract_transaction_number. -/
def cashExtractTxnNumber (body subject : Cs) : Option Cs :=
  let content := body ++ ' ' :: subject
  let raw := body ++ '\n' :: subject
  match txnStage1 raw with
  | some cap =>
    let t := stripTxnChars (subTagsL [] (stripWs cap))
    if !t.isEmpty && !txnJunk t then some (dHashPrefix t)
    else txnStages2to5 content raw
  | none =>
    match scanFirst (pipeTxnAt false) raw with
    | some t => some t
    | none => txnStages2to5 content raw

/-! ### Dates, status, type, detection -/

def monthOfName (s : Cs) : Option Nat :=
  let l := lower s
  if l == "january".data then some 1 else if l == "february".data then some 2
  else if l == "march".data then some 3 else if l == "april".data then some 4
  else if l == "may".data then some 5 else if l == "june".data then some 6
  else if l == "july".data then some 7 else if l == "august".data then some 8
  else if l == "september".data then some 9 else if l == "october".data then some 10
  else if l == "november".data then some 11 else if l == "december".data then some 12
  else monthOfAbbrev s

/-- Month-name date fragment: word, day, optional comma, year. -/
def dateNameAt (s : Cs) : Option (Nat × Nat × Nat × Cs) := do
  let (w, r1) ← capPlus isAlphaC s
  let mo ← monthOfName w
  let r2 ← wsPlus r1
  let (d, r3) ← parse1or2d r2
  let r4 := (expectC ',' r3).getD r3
  let r5 ← wsPlus r4
  let (y, r6) ← parse4d r5
  pure (y, mo, d, r6)

/-- Twelve-hour clock fragment with AM or PM marker (case-insensitive). -/
def time12At (s : Cs) : Option (Nat × Nat × Nat × Bool × Cs) := do
  let (h, r1) ← parse1or2d s
  let r2 ← expectC ':' r1
  let (mi, r3) ← parse2d r2
  let r4 ← expectC ':' r3
  let (sec, r5) ← parse2d r4
  let r6 ← wsPlus r5
  match r6 with
  | a :: m :: rest =>
    if (lowerC a == 'a' || lowerC a == 'p') && lowerC m == 'm' then
      pure (h, mi, sec, lowerC a == 'p', rest)
    else none
  | _ => none

def hour24 (h : Nat) (pm : Bool) : Nat :=
  let h12 := if h == 12 then 0 else h
  if pm then h12 + 12 else h12

def isUpperAlphaC (c : Char) : Bool := 65 ≤ c.toNat && c.toNat ≤ 90

/-- Month-name date, at, time, timezone abbreviation (the shared core of
transaction-date patterns one to three), validated as dateutil would. -/
def cashDateCoreAt (s : Cs) : Option PyDateTime := do
  let (y, mo, d, r1) ← dateNameAt s
  let r2 ← wsPlus r1
  let r3 ← matchCI "at".data r2
  let r4 ← wsPlus r3
  let (h, mi, sec, pm, r5) ← time12At r4
  let r6 ← wsPlus r5
  match r6 with
  | a :: b :: c :: _ =>
    if isUpperAlphaC a && isUpperAlphaC b && isUpperAlphaC c then
      if d < 1 || daysInMonth y mo < d || 12 < h || h < 1 || 59 < mi || 59 < sec
      then none
      else pure ⟨⟨y, mo, d⟩, hour24 h pm, mi, sec⟩
    else none
  | _ => none

/-- Pattern one: the Cash App From header line, a line break, the Date
label, then the dated core. -/
def cashDateP1 (s : Cs) : Option PyDateTime := do
  let r1 ← matchCI "from: cash app <cash@square.com>".data s
  let r2 := (expectC '\r' r1).getD r1
  let r3 ← expectC '\n' r2
  let r4 ← matchCI "date: ".data r3
  cashDateCoreAt r4

/-- Pattern two: Date separators+ dated core. -/
def cashDateP2 (s : Cs) : Option PyDateTime := do
  let r1 ← matchCI "date".data s
  let (run, r2) := takeClass sepColonWs r1
  if run.isEmpty then none else cashDateCoreAt r2

/-- Pattern four: slash date with twelve-hour time, no timezone. -/
def cashDateP4 (s : Cs) : Option PyDateTime := do
  let (mo, r1) ← parse1or2d s
  let r2 ← expectC '/' r1
  let (d, r3) ← parse1or2d r2
  let r4 ← expectC '/' r3
  let (y, r5) ← parse4d r4
  let r6 ← wsPlus r5
  let (h, mi, sec, pm, _) ← time12At r6
  if mo < 1 || 12 < mo || d < 1 || daysInMonth y mo < d
      || 12 < h || h < 1 || 59 < mi || 59 < sec then none
  else pure ⟨⟨y, mo, d⟩, hour24 h pm, mi, sec⟩

/-- CashAppParser._extract_transaction_date: four prioritized patterns;
none found (or unparseable) yields none. -/
def cashExtractTransactionDate (body subject : Cs) : Option PyDateTime :=
  let content := body ++ ' ' :: subject
  match scanFirst cashDateP1 content with
  | some d => some d
  | none =>
    match scanFirst cashDateP2 content with
    | some d => some d
    | none =>
      match scanFirst cashDateCoreAt content with
      | some d => some d
      | none => scanFirst cashDateP4 content

/-- CashAppParser._extract_email_date: Date header else now. -/
def cashExtractEmailDate (m : EmailMessage) (now : PyDateTime) : PyDateTime :=
  match m.dateH with
  | some s => (parseRfcDate s.data).getD now
  | none => now

/-- Payment has completed pattern. -/
def payHasCompletedAt (s : Cs) : Option Unit := do
  let r1 ← matchCI "payment".data s
  let r2 ← wsPlus r1
  let r3 ← matchCI "has".data r2
  let r4 ← wsPlus r3
  let _ ← matchCI "completed".data r4
  pure ()

def payCompletedAt (s : Cs) : Option Unit := do
  let r1 ← matchCI "payment".data s
  let r2 ← wsPlus r1
  let _ ← matchCI "completed".data r2
  pure ()

def statusColonCompletedAt (s : Cs) : Option Unit := do
  let r1 ← (matchCI "status".data s).orElse fun _ => matchCI "payment".data s
  let r2 ← expectC ':' r1
  let _ ← matchCI "completed".data (wsStar r2)
  pure ()

/-- Word-bounded Completed occurrence. -/
def completedWordAt (prevIsWord : Bool) (s : Cs) : Option Unit := do
  if prevIsWord then none
  else
    let r ← matchCI "completed".data s
    match r with
    | [] => pure ()
    | c :: _ => if isWordC c then none else pure ()

def scanWordBounded (w : String) : Cs → Bool :=
  let rec go (prevIsWord : Bool) : Cs → Bool
    | [] => false
    | c :: cs =>
      (!prevIsWord &&
        (match matchCI w.data (c :: cs) with
         | some r =>
           match r with
           | [] => true
           | d :: _ => !isWordC d
         | none => false))
      || go (isWordC c) cs
  go false

/-- CashAppParser._extract_payment_status (every branch yields completed,
as in the source). -/
def cashExtractPaymentStatus (body subject : Cs) : Cs :=
  let content := body ++ ' ' :: subject
  if (scanFirst payHasCompletedAt content).isSome
      || (scanFirst payCompletedAt content).isSome
      || (scanFirst statusColonCompletedAt content).isSome
      || scanWordBounded "completed" content then
    "completed".data
  else "completed".data

def kwPairAt (a b : String) (s : Cs) : Option Unit := do
  let r1 ← matchCI a.data s
  let r2 ← wsPlus r1
  let _ ← matchCI b.data r2
  pure ()

def kwTripleAt (a b c : String) (s : Cs) : Option Unit := do
  let r1 ← matchCI a.data s
  let r2 ← wsPlus r1
  let r3 ← matchCI b.data r2
  let r4 ← wsPlus r3
  let _ ← matchCI c.data r4
  pure ()

/-- CashAppParser._determine_transaction_type over the ordered pattern
pairs. -/
def cashDetermineType (body subject : Cs) : Cs :=
  let content := lower (body ++ ' ' :: subject)
  if (scanFirst (kwPairAt "payment" "request") content).isSome then "request".data
  else if (scanFirst (kwPairAt "requested" "payment") content).isSome then
    "request".data
  else if (scanFirst (kwTripleAt "sent" "you" "money") content).isSome then
    "received".data
  else if (scanFirst (kwPairAt "you" "sent") content).isSome then "sent".data
  else if (scanFirst (kwPairAt "payment" "received") content).isSome then
    "received".data
  else "transfer".data

/-- Dollar digit subject pattern. -/
def dollarDigitAt (s : Cs) : Option Unit :=
  match s with
  | '$' :: c :: _ => if isDigitC c then some () else none
  | _ => none

/-- hash d token body pattern (lower-cased d, over the lower-cased body). -/
def hashDLowerAt (s : Cs) : Option Unit :=
  match s with
  | '#' :: 'd' :: '-' :: c :: _ =>
    if isLowerAlphaC c || isDigitC c then some () else none
  | _ => none

def cashIndicators : List Cs :=
  ["cash@square.com", "noreply@cash.app", "cash.app", "square cash"].map String.data

def promotionalKeywords : List Cs :=
  ["get up to", "referral", "bonus", "offer", "sweepstakes",
   "enter to win", "limited time", "promotion", "invite friends"].map String.data

/-- CashAppParser.can_parse. -/
def cashCanParse (m : EmailMessage) : Bool :=
  let fromA := lower (getHdrD m.fromH "").data
  let subject := lower (getHdrD m.subjectH "").data
  let body := lower (extractEmailBody m)
  if cashIndicators.any (fun i =>
      isSubstr i fromA || isSubstr i subject || isSubstr i body) then
    !(promotionalKeywords.any (fun k => isSubstr k subject || isSubstr k body))
  else if (scanFirst (kwPairAt "cash" "app") subject).isSome
      || (scanFirst (fun s => do
            let r1 ← matchCI "payment".data s
            let r2 ← wsPlus r1
            let _ ← (matchCI "received".data r2).orElse fun _ =>
              (matchCI "sent".data r2).orElse fun _ => matchCI "request".data r2
            pure ()) subject).isSome
      || (scanFirst dollarDigitAt subject).isSome
      || (scanFirst (fun s => do
            let r1 ← matchCI "sent".data s
            let r2 ← wsPlus r1
            let r3 ← matchCI "you".data r2
            let r4 ← wsPlus r3
            let _ ← expectC '$' r4
            pure ()) subject).isSome
      || (scanFirst (fun s => do
            let r1 ← matchCI "you".data s
            let r2 ← wsPlus r1
            let r3 ← matchCI "sent".data r2
            let r4 ← wsPlus r3
            let _ ← expectC '$' r4
            pure ()) subject).isSome then
    true
  else
    (scanFirst (kwTripleAt "cash" "app" "logo") body).isSome
    || (scanFirst (kwPairAt "transaction" "details") body).isSome
    || (scanFirst (kwTripleAt "payment" "has" "completed") body).isSome
    || (scanFirst (kwPairAt "transaction" "number") body).isSome
    || (scanFirst hashDLowerAt body).isSome

/-- The forwarded-message marker (lines 184-188): Cash App From header,
a forwarded-message divider, or an Original Message line. -/
def fwdMarkerAt (s : Cs) : Bool :=
  (do
    let r1 ← matchCI "from:".data s
    let r2 := wsStar r1
    let r3 ← matchCI "cash app".data r2
    let r4 := wsStar r3
    let _ ← matchCI "<cash@square.com>".data r4
    pure ()).isSome
  || (do
    let r1 ← matchCI "from:".data s
    let _ ← matchCI "cash@square.com".data (wsStar r1)
    pure ()).isSome
  || (match capPlus (fun c => c == '-') s with
      | some (run, rest) =>
        3 ≤ run.length && (matchCI "forwarded message".data (wsStar rest)).isSome
      | none => false)
  || (matchCI "original message".data s).isSome

def scanSuffix (f : Cs → Bool) : Cs → Option Cs
  | [] => if f [] then some [] else none
  | c :: cs => if f (c :: cs) then some (c :: cs) else scanSuffix f cs

def vendorTokens : List Cs :=
  ["cash", "cash app", "cashapp", "square", "noreply", "support",
   "receipt", "help", "cash.me"].map String.data

def vendorHit (name : Cs) : Bool :=
  vendorTokens.any (fun t => isSubstr t (lower name))

def senderIsYou (o : Option Cs) : Bool :=
  match o with
  | some s => lower (stripWs s) == "you".data
  | none => false

def placeholderNames : List Cs :=
  ["cash app", "cashapp", "noreply", "noreply@cash.app", "unknown"].map String.data

def htmlBanList : List Cs :=
  ["you", "unknown", "cash app", "cashapp", "noreply"].map String.data

/-- The raw-HTML Recipient br Sender pattern of the fallback block
(lines 338-351): lazy captures around a br tag. -/
def htmlPairAt (s : Cs) : Option (Cs × Cs) := do
  let r1 ← matchCI "recipient".data s
  let r2 := (takeClass sepColonWs r1).2
  let (cap1, r3) ← lazyCapUntil (fun c => !(c == '<') && !isNewlineC c)
    (fun rest =>
      ((do
        let t1 := rest.dropWhile isWsC
        let t2 ← matchCI "<br".data t1
        pure t2) : Option Cs).isSome) r2
  let t1 := r3.dropWhile isWsC
  let t2 ← matchCI "<br".data t1
  let t3 := t2.dropWhile (fun c => !(c == '>'))
  let t4 ← expectC '>' t3
  let t5 := t4.dropWhile isWsC
  let t6 ← matchCI "sender".data t5
  let t7 := (takeClass sepColonWs t6).2
  match t7 with
  | c :: _ => if !(c == '<') && !isNewlineC c then pure (cap1, [c]) else none
  | [] => none

/-- The HTML-part fallback block of parse_transaction (lines 307-379),
updating transaction number, sender and recipient. -/
def cashHtmlFallback (m : EmailMessage) (subject : Cs) (txn : Option Cs)
    (sender recipient : Option Cs) : Option Cs × Option Cs × Option Cs :=
  if !(!pyTruthy txn || senderIsYou sender) then (txn, sender, recipient)
  else
    match m.htmlPart with
    | none => (txn, sender, recipient)
    | some htmlS =>
      let html := htmlS.data
      let htmlText := subTagsL ['\n'] html
      let (sender1, recip1) :=
        match cashExtractPaymentBetween htmlText with
        | some (candR, candS) =>
          let recip1 :=
            if !candR.isEmpty && cashIsValidName (some candR) && !vendorHit candR
            then some candR else recipient
          let sender1 :=
            if !candS.isEmpty && cashIsValidName (some candS) && !vendorHit candS
            then some candS else sender
          (sender1, recip1)
        | none =>
          match scanFirst htmlPairAt html with
          | some (candR0, candS0) =>
            let candR := cashCleanName (stripWs candR0)
            let candS := cashCleanName (stripWs candS0)
            let recip1 :=
              if !candR.isEmpty && cashIsValidName (some candR) && !vendorHit candR
              then some candR else recipient
            let sender1 :=
              if !candS.isEmpty && cashIsValidName (some candS) && !vendorHit candS
              then some candS else sender
            (sender1, recip1)
          | none => (sender, recipient)
      let txn1 :=
        if !pyTruthy txn then
          match cashExtractTxnNumber htmlText subject with
          | some t => some t
          | none => txn
        else txn
      let sender2 :=
        if senderIsYou sender1 then
          let sH := cashExtractSender htmlText subject
          if !sH.isEmpty && !htmlBanList.contains (lower sH) then some sH
          else sender1
        else sender1
      let recip2 :=
        if senderIsYou recip1 then
          match cashExtractRecipient htmlText subject with
          | some rH =>
            if !rH.isEmpty && !htmlBanList.contains (lower rH) then some rH
            else recip1
          | none => recip1
        else recip1
      (txn1, sender2, recip2)

/-! ### Validation gate and the main Cash App parse -/

/-- The dictionary fields BaseParser.validate_transaction_data inspects
(an absent key and a None value coincide at this granularity). -/
structure TxDict where
  transaction_id : Option String
  sender : Option String
  amount : Option ℚ
  source_provider : Option String
deriving Repr, DecidableEq

/-- BaseParser.validate_transaction_data: required fields present and not
None, amount a positive number. -/
def validateTransactionData (d : TxDict) : Bool :=
  d.transaction_id.isSome && d.sender.isSome && d.amount.isSome &&
    d.source_provider.isSome &&
    (match d.amount with
     | some a => decide (0 < a)
     | none => false)

/-- str.title(). -/
def pyTitleAux : Bool → Cs → Cs
  | _, [] => []
  | prevAlpha, c :: cs =>
    if isAlphaC c then
      (if prevAlpha then lowerC c else upperC c) :: pyTitleAux true cs
    else c :: pyTitleAux false cs

def pyTitle (s : Cs) : Cs := pyTitleAux false s

/-- The transaction dictionary CashAppParser.parse_transaction builds
(lines 403-419). -/
structure CashTx where
  transaction_id : String
  amount : ℚ
  amount_paid : ℚ
  currency : String
  transaction_type : String
  payment_status : String
  paid_by : String
  paid_to : String
  sender : String
  deposited_to : String
  transaction_number : String
  transaction_date : String
  source_provider : String
  raw_email_data : String
  description : String
deriving Repr, DecidableEq

/-- The placeholder normalization of lines 227-247 applied to one of the
two name fields. -/
def cashNormalizePlaceholder (m : EmailMessage) (body subject : Cs)
    (v : Option Cs) : Option Cs :=
  match v with
  | some s =>
    if !s.isEmpty && placeholderNames.contains (lower s) then
      let ao :=
        match cashExtractAccountOwner body subject with
        | some o => some o
        | none => cashParseDisplayFromHeader m.fromH
      match ao with
      | some owner =>
        if !owner.isEmpty && cashIsValidName (some owner) then some owner else none
      | none => none
    else v
  | none => v

def depositCls (c : Char) : Bool := isAlphaC c || c.toNat == 39

def wsCap (s : Cs) : Option (Cs × Cs) := capPlus isWsC s

/-- Greedy word (whitespace+ word)* capture followed by a tail pattern,
giving whole whitespace-word groups back from the right on failure. -/
def mwExt {β : Type} (cls : Char → Bool) (tailM : Cs → Option β) :
    Nat → Cs → Cs → Option (Cs × β)
  | 0, acc, rest => (tailM rest).map (fun b => (acc, b))
  | fuel + 1, acc, rest =>
    match (do
      let (w1, r1) ← wsCap rest
      let (w2, r2) ← capPlus cls r1
      pure (w1, w2, r2) : Option (Cs × Cs × Cs)) with
    | some (w1, w2, r2) =>
      match mwExt cls tailM fuel (acc ++ w1 ++ w2) r2 with
      | some res => some res
      | none => (tailM rest).map (fun b => (acc, b))
    | none => (tailM rest).map (fun b => (acc, b))

def mwThen {β : Type} (cls : Char → Bool) (tailM : Cs → Option β)
    (s : Cs) : Option (Cs × β) := do
  let (w1, r1) ← capPlus cls s
  mwExt cls tailM r1.length w1 r1

/-- Deposited to separators+ multiword. -/
def depP1 (s : Cs) : Option Cs := do
  let r1 ← matchCI "deposited".data s
  let r2 ← wsPlus r1
  let r3 ← matchCI "to".data r2
  let (run, r4) := takeClass sepColonWs r3
  if run.isEmpty then none
  else (mwThen depositCls (fun r => some r) r4).map Prod.fst

/-- Deposited whitespace+ multiword. -/
def depP2 (s : Cs) : Option Cs := do
  let r1 ← matchCI "deposited".data s
  let r2 ← wsPlus r1
  (mwThen depositCls (fun r => some r) r2).map Prod.fst

/-- multiword then whitespace+ balance. -/
def depP3 (s : Cs) : Option Cs :=
  (mwThen depositCls (fun r => do
    let r1 ← wsPlus r
    let _ ← matchCI "balance".data r1
    pure ()) s).map Prod.fst

def depositPost (cap : Cs) : Option Cs :=
  let d := stripWs cap
  if !d.isEmpty && 2 < d.length then
    let cleaned := cashCleanName d
    if !(["blockchain", "realty", "sender"].map String.data).contains
        (lower cleaned) then
      some cleaned
    else none
  else none

/-- CashAppParser._extract_deposited_to. -/
def cashExtractDepositedTo (body subject : Cs) : Cs :=
  let content := body ++ ' ' :: subject
  if (scanFirst (kwPairAt "cash" "balance") content).isSome then
    "Cash balance".data
  else
    match chainPats depositPost [depP1, depP2, depP3] content with
    | some d => d
    | none => "Cash balance".data

/-- The tail of CashAppParser.parse_transaction after the sender and
recipient have been resolved (lines 301-429): presence gate, HTML
fallback, mandatory transaction number, record build and validation. -/
def cashFinish (now : PyDateTime) (m : EmailMessage)
    (subject body parsingBody : Cs) (amount : ℚ)
    (sender6 recip6 : Option Cs) : Option CashTx :=
  if !(pyTruthy sender6 && pyTruthy recip6) then none
  else
    let depositedTo := cashExtractDepositedTo parsingBody subject
    let txn0 := cashExtractTxnNumber parsingBody subject
    match cashHtmlFallback m subject txn0 sender6 recip6 with
    | (txn1, sender7, recip7) =>
      match txn1 with
      | none => none
      | some t =>
        if t.isEmpty then none
        else
          let txnDate := cashExtractTransactionDate parsingBody subject
          let payStatus := cashExtractPaymentStatus parsingBody subject
          let ttype := cashDetermineType body subject
          let senderS := sender7.getD []
          let recipS := recip7.getD []
          let dtv :=
            match txnDate with
            | some d => d
            | none => cashExtractEmailDate m now
          let rec0 : CashTx :=
            { transaction_id := String.mk t
              amount := amount
              amount_paid := amount
              currency := "USD"
              transaction_type :=
                if ttype.isEmpty then "Cash" else String.mk (pyTitle ttype)
              payment_status :=
                if payStatus.isEmpty then "Completed"
                else String.mk (pyTitle payStatus)
              paid_by := String.mk senderS
              paid_to := String.mk recipS
              sender := String.mk senderS
              deposited_to :=
                if depositedTo.isEmpty then "Cash balance"
                else String.mk depositedTo
              transaction_number := String.mk t
              transaction_date := String.mk (fmtIsoMidnight dtv)
              source_provider := "cashapp"
              raw_email_data := String.mk body
              description := String.mk subject }
          if validateTransactionData
              { transaction_id := some rec0.transaction_id,
                sender := some rec0.sender,
                amount := some rec0.amount,
                source_provider := some rec0.source_provider } then
            some rec0
          else none

/-- The sender and recipient resolution chain of
CashAppParser.parse_transaction (lines 180-299): payment-between override,
placeholder normalization, account-owner and header substitutions, final
header fallbacks. -/
def cashResolve (m : EmailMessage) (subject body parsingBody content : Cs) :
    Option Cs × Option Cs :=
  let pb := cashExtractPaymentBetween content
  let senderOverride := pb.map Prod.snd
  let recipOverride := pb.map Prod.fst
  let sender1 : Option Cs := some (cashExtractSender parsingBody subject)
  let recip1 : Option Cs := cashExtractRecipient parsingBody subject
  let sender2 :=
    match senderOverride with
    | some s => if !s.isEmpty then some s else sender1
    | none => sender1
  let recip2 :=
    match recipOverride with
    | some r => if !r.isEmpty then some r else recip1
    | none => recip1
  let sender3 := cashNormalizePlaceholder m body subject sender2
  let recip3 := cashNormalizePlaceholder m body subject recip2
  -- account owner for the literal You substitution, vendor-filtered
  let accountOwner0 :=
    match cashExtractAccountOwner body subject with
    | some o => some o
    | none => cashParseDisplayFromHeader m.fromH
  let accountOwner :=
    match accountOwner0 with
    | some ao => if !ao.isEmpty && vendorHit ao then none else some ao
    | none => none
  let sender4 :=
    if senderIsYou sender3 && pyTruthy accountOwner then accountOwner
    else sender3
  let recip4 :=
    if senderIsYou recip3 && pyTruthy accountOwner then accountOwner
    else recip3
  let sender5 :=
    if senderIsYou sender4 then
      match cashParseDisplayFromHeader m.fromH with
      | some p => if !p.isEmpty then some p else sender4
      | none => sender4
    else sender4
  let recip5 :=
    if senderIsYou recip4 then
      match cashParseDisplayFromHeader m.toH with
      | some p => if !p.isEmpty then some p else recip4
      | none => recip4
    else recip4
  let sender6 :=
    if !pyTruthy sender5 then
      match cashParseDisplayFromHeader m.fromH with
      | some c => if !c.isEmpty then some c else sender5
      | none => sender5
    else sender5
  let recip6 :=
    if !pyTruthy recip5 then
      match cashParseDisplayFromHeader m.toH with
      | some c => if !c.isEmpty then some c else recip5
      | none => recip5
    else recip5
  (sender6, recip6)

/-- CashAppParser.parse_transaction. -/
def cashParseTransaction (now : PyDateTime) (m : EmailMessage) : Option CashTx :=
  let subject := (getHdrD m.subjectH "").data
  let body := extractEmailBody m
  let content := body ++ ' ' :: subject
  let parsingBody := (scanSuffix fwdMarkerAt body).getD body
  match cashExtractAmount body subject with
  | none => none
  | some amount =>
    if amount == 0 then none
    else
      match cashResolve m subject body parsingBody content with
      | (sender6, recip6) =>
        cashFinish now m subject body parsingBody amount sender6 recip6

/-! ## Parser chain (parser_factory.py) and run processors
(transaction_processor.py, multi_account_transaction_processor.py,
multi_account_email_client.py) -/

inductive ParserTag
  | cashapp
  | genericPayment
deriving Repr, DecidableEq

/-- ParserFactory.find_parser_for_email over the registration order
(cashapp first, generic fallback second). -/
def findParserForEmail (m : EmailMessage) : Option ParserTag :=
  if cashCanParse m then some ParserTag.cashapp
  else if genCanParse m then some ParserTag.genericPayment
  else none

/-- A parse result: the Cash App parser returns a plain dictionary, the
generic parser returns a Transaction model object. -/
inductive TxnData
  | dict (t : CashTx)
  | obj (t : GenTransaction)
deriving Repr, DecidableEq

def chainParse (p : ParserTag) (now : PyDateTime) (m : EmailMessage) :
    Option TxnData :=
  match p with
  | ParserTag.cashapp => (cashParseTransaction now m).map TxnData.dict
  | ParserTag.genericPayment => (genParseTransaction now m).map TxnData.obj

/-- transaction_data.get of the transaction_id key: a dictionary yields its
value; the generic parser's Transaction model object has no get method, so
the attribute lookup raises (AttributeError), modelled as the error case. -/
def pyGetTxnId : TxnData → Except String (Option String)
  | TxnData.dict t => Except.ok (some t.transaction_id)
  | TxnData.obj _ => Except.error "AttributeError"

/-- The counters and lists of TransactionProcessor._process_email_list
(duplicate entries are kept as their transaction ids, failed entries as a
count; transactions are kept as the parser outputs, which the source
passes through _normalize_transaction_data one-to-one before appending). -/
structure SingleRunResult where
  processed_emails : Nat
  new_transactions : Nat
  errors : Nat
  transactions : List TxnData
  duplicate_transactions : List String
  failed_emails : Nat
deriving Repr, DecidableEq

/-- One processed message that failed (no parser, parse failure, or an
exception): error counter, failure entry. -/
def bumpErr (r : SingleRunResult) : SingleRunResult :=
  { r with processed_emails := r.processed_emails + 1,
           errors := r.errors + 1,
           failed_emails := r.failed_emails + 1 }

/-- One processed message classified duplicate: recorded, excluded from
the transaction list. -/
def bumpDup (tid : String) (r : SingleRunResult) : SingleRunResult :=
  { r with processed_emails := r.processed_emails + 1,
           duplicate_transactions := tid :: r.duplicate_transactions }

/-- One processed message emitted as a new transaction. -/
def bumpNew (d : TxnData) (r : SingleRunResult) : SingleRunResult :=
  { r with processed_emails := r.processed_emails + 1,
           new_transactions := r.new_transactions + 1,
           transactions := d :: r.transactions }

/-- TransactionProcessor._process_email_list, parameterized by the parser
registry exactly as the source reads it from self.parser_factory. -/
def processEmailListAux (findP : EmailMessage → Option ParserTag)
    (parse : ParserTag → EmailMessage → Option TxnData) :
    List EmailMessage → List String → SingleRunResult
  | [], _ => ⟨0, 0, 0, [], [], 0⟩
  | msg :: ms, seen =>
    match findP msg with
    | none => bumpErr (processEmailListAux findP parse ms seen)
    | some p =>
      match parse p msg with
      | none => bumpErr (processEmailListAux findP parse ms seen)
      | some d =>
        match pyGetTxnId d with
        | Except.error _ => bumpErr (processEmailListAux findP parse ms seen)
        | Except.ok (some tid) =>
          if !tid.isEmpty && seen.contains tid then
            bumpDup tid (processEmailListAux findP parse ms seen)
          else
            bumpNew d (processEmailListAux findP parse ms
              (if !tid.isEmpty then tid :: seen else seen))
        | Except.ok none =>
          bumpNew d (processEmailListAux findP parse ms seen)

def processEmailList (findP : EmailMessage → Option ParserTag)
    (parse : ParserTag → EmailMessage → Option TxnData)
    (emails : List EmailMessage) : SingleRunResult :=
  processEmailListAux findP parse emails []

/-- A transaction entry of the multi-account processor: the parser output
with the integration metadata attached (_process_email lines 52-56). -/
structure MultiTxEntry where
  data : TxnData
  integration_id : Option String
  integration_user_id : Option String
deriving Repr, DecidableEq

structure MultiRunResult where
  processed_emails : Nat
  new_transactions : Nat
  errors : Nat
  transactions : List MultiTxEntry
  duplicate_transactions : List String
  erros_entries : Nat
deriving Repr, DecidableEq

/-- MultiAccountTransactionProcessor._process_email. -/
def processEmailMulti (findP : EmailMessage → Option ParserTag)
    (parse : ParserTag → EmailMessage → Option TxnData)
    (m : EmailMessage) (integ : EmailIntegration) : Option MultiTxEntry :=
  match findP m with
  | none => none
  | some p =>
    match parse p m with
    | some d => some ⟨d, integ.id, integ.user_id⟩
    | none => none

/-- One multi-account message emitted as new. -/
def mBumpNew (e : MultiTxEntry) (r : MultiRunResult) : MultiRunResult :=
  { r with processed_emails := r.processed_emails + 1,
           new_transactions := r.new_transactions + 1,
           transactions := e :: r.transactions }

/-- One multi-account message whose processing failed: an error counter
bump and an entry in the Erros list. -/
def mBumpErr (r : MultiRunResult) : MultiRunResult :=
  { r with processed_emails := r.processed_emails + 1,
           errors := r.errors + 1,
           erros_entries := r.erros_entries + 1 }

/-- The per-message loop of
MultiAccountTransactionProcessor.process_emails_by_sender (lines 93-121):
no dedup state exists; duplicate_transactions is initialized and never
written. -/
def multiProcessPairs (findP : EmailMessage → Option ParserTag)
    (parse : ParserTag → EmailMessage → Option TxnData) :
    List (EmailIntegration × EmailMessage) → MultiRunResult
  | [] => ⟨0, 0, 0, [], [], 0⟩
  | (integ, m) :: ps =>
    match processEmailMulti findP parse m integ with
    | some e => mBumpNew e (multiProcessPairs findP parse ps)
    | none => mBumpErr (multiProcessPairs findP parse ps)

/-- A retrieval stream: the messages an integration's search yielded, and
whether an exception escaped afterwards (swallowed by the generator's
except block after the prefix was yielded). -/
structure RetrOutcome where
  msgs : List EmailMessage
  raised : Bool

/-- MultiAccountEmailClient.process_integration_emails: a failed OAuth
refresh yields nothing (and records nothing); a retrieval exception is
caught and logged after the yielded prefix. -/
def processIntegrationEmails (clientId clientSecret : String)
    (endpoint : EmailIntegration → TokenEndpointResult) (storeOk : Bool)
    (now : Int) (retrieve : EmailIntegration → RetrOutcome)
    (integ : EmailIntegration) : List EmailMessage :=
  if integ.isOauth &&
      !(refreshOauthTokenIfNeeded clientId clientSecret (endpoint integ)
          storeOk now integ).ok then []
  else (retrieve integ).msgs

/-- MultiAccountEmailClient.process_all_integrations_emails: every active
integration is attempted; a per-integration exception is caught and the
loop continues. -/
def processAllIntegrationsEmails (clientId clientSecret : String)
    (endpoint : EmailIntegration → TokenEndpointResult) (storeOk : Bool)
    (now : Int) (retrieve : EmailIntegration → RetrOutcome)
    (integs : List EmailIntegration) :
    List (EmailIntegration × EmailMessage) :=
  integs.flatMap (fun i =>
    (processIntegrationEmails clientId clientSecret endpoint storeOk now
      retrieve i).map (fun m => (i, m)))

/-- MultiAccountTransactionProcessor.process_emails_by_sender composed over
the multi-account stream. -/
def multiProcessEmailsBySender (findP : EmailMessage → Option ParserTag)
    (parse : ParserTag → EmailMessage → Option TxnData)
    (clientId clientSecret : String)
    (endpoint : EmailIntegration → TokenEndpointResult) (storeOk : Bool)
    (now : Int) (retrieve : EmailIntegration → RetrOutcome)
    (integs : List EmailIntegration) : MultiRunResult :=
  multiProcessPairs findP parse
    (processAllIntegrationsEmails clientId clientSecret endpoint storeOk now
      retrieve integs)

/-- How many of the messages a run would successfully match and parse
(a parser claims the message, extraction succeeds, and the id lookup on
the parse output does not raise). -/
def parsedOk (findP : EmailMessage → Option ParserTag)
    (parse : ParserTag → EmailMessage → Option TxnData)
    (m : EmailMessage) : Bool :=
  match findP m with
  | some p =>
    match parse p m with
    | some d =>
      match pyGetTxnId d with
      | Except.ok _ => true
      | Except.error _ => false
    | none => false
  | none => false

def parsedOkCount (findP : EmailMessage → Option ParserTag)
    (parse : ParserTag → EmailMessage → Option TxnData)
    (emails : List EmailMessage) : Nat :=
  (emails.filter (parsedOk findP parse)).length

/-! ## Concrete fixtures used by witnesses and counterexamples -/

def now0 : PyDateTime := ⟨⟨2026, 1, 2⟩, 3, 4, 5⟩

/-- A representative Cash App notification with an explicit transaction
number on the line after its label. -/
def msgCash : EmailMessage :=
  { fromH := some "Cash App <cash@square.com>",
    subjectH := some "Payment received",
    textPlain := some "Emmanuel Pagan\nYou sent $25.00 to Jane Doe\nTransaction number\n#D-ABC123\nCash balance" }

/-- A payment email no specific parser claims: it reaches the generic
fallback and contains no transaction number anywhere. -/
def msgVenmo : EmailMessage :=
  { fromH := some "alerts@venmo.example.com",
    subjectH := some "Money update",
    textPlain := some "You sent a payment of $25.00 to Jane Doe" }

/-- The same body with a sender address whose domain starts with a dot,
driving the generic provider tag to the empty string. -/
def msgDotCom : EmailMessage :=
  { fromH := some "x@.com",
    subjectH := some "Money update",
    textPlain := some "You sent a payment of $25.00 to Jane Doe" }

/-- The record cashParseTransaction builds for msgCash. -/
def cashTxA : CashTx :=
  { transaction_id := "#D-ABC123"
    amount := 25
    amount_paid := 25
    currency := "USD"
    transaction_type := "Sent"
    payment_status := "Completed"
    paid_by := "Emmanuel Pagan"
    paid_to := "Jane Doe"
    sender := "Emmanuel Pagan"
    deposited_to := "Cash balance"
    transaction_number := "#D-ABC123"
    transaction_date := "2026-01-02T00:00:00"
    source_provider := "cashapp"
    raw_email_data := "Emmanuel Pagan\nYou sent $25.00 to Jane Doe\nTransaction number\n#D-ABC123\nCash balance"
    description := "Payment received" }

def uuidBody : Cs := "Transaction number: aaaaaaaa-bbbb-cccc-dddd-eeeeeeeeeeee".data

def uuidTok : Cs := "aaaaaaaa-bbbb-cccc-dddd-eeeeeeeeeeee".data

def integ1 : EmailIntegration :=
  { id := some "int-1", user_id := some "user-1",
    integration_type := some "manual",
    oauth_access_token := none, oauth_refresh_token := none,
    oauth_token_expiry := none }

def endpoint0 : EmailIntegration → TokenEndpointResult :=
  fun _ => TokenEndpointResult.netErr "unused"

/-- Multi-account run over one integration whose retrieval yields the same
Cash App message twice. -/
def runC2 : MultiRunResult :=
  multiProcessEmailsBySender findParserForEmail (fun p m => chainParse p now0 m)
    "cid" "cs" endpoint0 true 0 (fun _ => ⟨[msgCash, msgCash], false⟩) [integ1]

def integA : EmailIntegration := { integ1 with id := some "A" }
def integB : EmailIntegration := { integ1 with id := some "B" }
def integC : EmailIntegration := { integ1 with id := some "C" }

/-- Multi-account run over three integrations where the second raises
during retrieval before yielding anything. -/
def runC3 : MultiRunResult :=
  multiProcessEmailsBySender findParserForEmail (fun p m => chainParse p now0 m)
    "cid" "cs" endpoint0 true 0
    (fun i => if i.id == some "B" then ⟨[], true⟩ else ⟨[msgCash], false⟩)
    [integA, integB, integC]

/-- A mailbox with one message, fetched by id one. -/
def connC6 : ImapConn :=
  { search := fun _ => ["1"],
    fetch := fun i => if i == "1" then some msgCash else none }

/-- OAuth integration whose token expires 240 seconds after time zero. -/
def integ240 : EmailIntegration :=
  { id := some "o1", user_id := some "u1",
    integration_type := some "oauth",
    oauth_access_token := some "atok", oauth_refresh_token := some "rtok",
    oauth_token_expiry := some (ExpiryField.edt 240) }

/-- The same integration with expiry 600 seconds after time zero. -/
def integ600 : EmailIntegration :=
  { integ240 with oauth_token_expiry := some (ExpiryField.edt 600) }

/-- OAuth integration whose stored expiry is an unparseable string. -/
def integBadExpiry : EmailIntegration :=
  { integ240 with oauth_token_expiry := some (ExpiryField.es "not-a-date") }


/-- The record genParseTransaction builds for msgVenmo: the transaction id
is the md5 hash of sender_recipient_amount_date, and no transaction number
was found anywhere. -/
def gVenmo : GenTransaction :=
  { transaction_id := ⟨"You_Jane Doe Money update_25.0_2026-01-02 03:04:05"⟩
    sender := "You"
    recipient := "Jane Doe Money update"
    amount := 25
    currency := "USD"
    transaction_type := "sent"
    status := "completed"
    description := none
    email_subject := "Money update"
    email_date := ⟨⟨2026, 1, 2⟩, 3, 4, 5⟩
    source_provider := "venmo"
    raw_email_data := "You sent a payment of $25.00 to Jane Doe"
    deposited_to := "Unknown"
    cashapp_transaction_number := none }

/-- The record genParseTransaction builds for msgDotCom: identical but the
detected provider tag is the empty string. -/
def gDotCom : GenTransaction := { gVenmo with source_provider := "" }

/-! ## Theorems -/

/-- C7: for an OAuth integration with a parsed expiry, the token-refresh
exchange is performed exactly when the current time is at or past expiry
minus the 300-second buffer; below the threshold the integration is left
untouched and reported valid. -/
theorem C7_refresh_exactly_at_buffer :
    ∀ (cid csec : String) (endpoint : TokenEndpointResult) (storeOk : Bool)
      (now e : Int) (integ : EmailIntegration),
      integ.isOauth = true →
      integ.oauth_token_expiry = some (ExpiryField.edt e) →
      ((refreshOauthTokenIfNeeded cid csec endpoint storeOk now integ).exchangeAttempted
          = true ↔ e - 300 ≤ now) ∧
      (now < e - 300 →
        refreshOauthTokenIfNeeded cid csec endpoint storeOk now integ =
          ⟨true, false, integ, false⟩) := by
  intro cid csec endpoint storeOk now e integ hoa hexp
  unfold refreshOauthTokenIfNeeded
  rw [hoa, hexp]
  simp only [Bool.not_true, Bool.false_eq_true, if_false, isTokenExpired]
  constructor
  · by_cases h : e - 300 ≤ now
    · have hd : decide (now ≥ e - 300) = true := by simpa [ge_iff_le] using h
      simp only [hd, Bool.not_true, Bool.false_eq_true, if_false]
      constructor
      · intro _; exact h
      · intro _
        split
        · rfl
        · split
          · rfl
          · rfl
    · have hd : decide (now ≥ e - 300) = false := by simpa [ge_iff_le] using h
      simp only [hd, Bool.not_false, if_true]
      constructor
      · intro hfalse; cases hfalse
      · intro hle; exact absurd hle h
  · intro hlt
    have hd : decide (now ≥ e - 300) = false := by
      simp only [decide_eq_false_iff_not, ge_iff_le, not_le]; exact hlt
    simp only [hd, Bool.not_false, if_true]

/-- C7 witness: a token expiring 240 seconds from now triggers the
exchange; one expiring 600 seconds from now is left untouched. -/
theorem C7_refresh_exactly_at_buffer_witness :
    (refreshOauthTokenIfNeeded "cid" "cs" (TokenEndpointResult.ok "t2" 3600)
        true 0 integ240).exchangeAttempted = true ∧
    refreshOauthTokenIfNeeded "cid" "cs" (TokenEndpointResult.ok "t2" 3600)
        true 0 integ600 = ⟨true, false, integ600, false⟩ := by
  constructor
  · exact (C7_refresh_exactly_at_buffer "cid" "cs" (TokenEndpointResult.ok "t2" 3600)
      true 0 240 integ240 (by decide) (by decide)).1.mpr (by decide)
  · exact (C7_refresh_exactly_at_buffer "cid" "cs" (TokenEndpointResult.ok "t2" 3600)
      true 0 600 integ600 (by decide) (by decide)).2 (by decide)

/-- C8: a same-day Gmail date-range search advances the before bound by one
day; distinct days use the end date as given. -/
theorem C8_same_day_range_bounds :
    gmailDateRangeQuery "cash@square.com" ⟨⟨2024, 6, 1⟩, 0, 0, 0⟩
        (some ⟨⟨2024, 6, 1⟩, 0, 0, 0⟩) =
      "from:cash@square.com after:2024/06/01 before:2024/06/02" ∧
    (∀ (sender : String) (s e : PyDateTime), ¬ s.date = e.date →
      gmailDateRangeQuery sender s (some e) =
        "from:" ++ sender ++ " after:" ++ String.mk (fmtYmdSlash s.date)
          ++ " before:" ++ String.mk (fmtYmdSlash e.date)) := by
  constructor
  · decide
  · intro sender s e hne
    simp [gmailDateRangeQuery, hne]

/-- C8 witness: a two-day range keeps its end date as the before bound. -/
theorem C8_same_day_range_bounds_witness :
    gmailDateRangeQuery "cash@square.com" ⟨⟨2024, 6, 1⟩, 0, 0, 0⟩
        (some ⟨⟨2024, 6, 5⟩, 0, 0, 0⟩) =
      "from:" ++ "cash@square.com" ++ " after:"
        ++ String.mk (fmtYmdSlash ⟨2024, 6, 1⟩)
        ++ " before:" ++ String.mk (fmtYmdSlash ⟨2024, 6, 5⟩) :=
  C8_same_day_range_bounds.2 "cash@square.com" ⟨⟨2024, 6, 1⟩, 0, 0, 0⟩
    ⟨⟨2024, 6, 5⟩, 0, 0, 0⟩ (by decide)

theorem contentLoop_marked_mem (conn : ImapConn) (text : String)
    (limit : Option Nat) :
    ∀ (ids : List String) (found : Nat) (i : String),
      i ∈ (contentLoop conn text limit found ids).2 → i ∈ ids := by
  intro ids
  induction ids with
  | nil => intro found i h; simp [contentLoop] at h
  | cons x xs ih =>
    intro found i h
    unfold contentLoop at h
    split at h
    · split at h
      · split at h
        · simp at h; simp [h]
        · simp at h
          rcases h with h | h
          · simp [h]
          · exact List.mem_cons_of_mem _ (ih _ _ h)
      · exact List.mem_cons_of_mem _ (ih _ _ h)
    · exact List.mem_cons_of_mem _ (ih _ _ h)

/-- C9: with no limit, the Gmail sender search requests at most one
hundred results, its date-range variant at most five hundred, and the IMAP
content search scans (and can mark) only the last hundred mailbox ids. -/
theorem C9_silent_default_caps :
    (∀ sender : String, (gmailSenderRequest sender none).maxResults = 100) ∧
    (∀ (sender : String) (s : PyDateTime) (e : Option PyDateTime),
      (gmailDateRangeRequest sender s e none).maxResults = 500) ∧
    (∀ conn : ImapConn, contentScanIds conn none = lastN 100 (conn.search "ALL")) ∧
    (∀ (conn : ImapConn) (text i : String),
      i ∈ (searchEmailsByContent conn text none).2 →
      i ∈ lastN 100 (conn.search "ALL")) := by
  refine ⟨fun _ => rfl, fun _ _ _ => rfl, fun _ => rfl, ?_⟩
  intro conn text i h
  exact contentLoop_marked_mem conn text none _ 0 i h

/-- C9 witness: the single mailbox id is both marked and within the last
hundred ids of the mailbox. -/
theorem C9_silent_default_caps_witness :
    ("1" : String) ∈ lastN 100 (connC6.search "ALL") :=
  C9_silent_default_caps.2.2.2 connC6 "payment" "1" (by decide)

/-- C10: an OAuth integration whose stored expiry is absent or unparseable
is treated as expired, so the refresh exchange is always attempted, and on
refresh failure the integration yields no messages. -/
theorem C10_missing_expiry_always_refreshes :
    ∀ (cid csec : String) (endpoint : TokenEndpointResult) (storeOk : Bool)
      (now : Int) (retrieve : EmailIntegration → RetrOutcome)
      (integ : EmailIntegration),
      integ.isOauth = true →
      (integ.oauth_token_expiry = none ∨
        ∃ s, integ.oauth_token_expiry = some (ExpiryField.es s) ∧
          parseIsoSeconds (pyReplaceZ s.data) = none) →
      (refreshOauthTokenIfNeeded cid csec endpoint storeOk now integ).exchangeAttempted
          = true ∧
      ((refreshOauthTokenIfNeeded cid csec endpoint storeOk now integ).ok = false →
        processIntegrationEmails cid csec (fun _ => endpoint) storeOk now retrieve
          integ = []) := by
  intro cid csec endpoint storeOk now retrieve integ hoa hexp
  have hnone :
      (match integ.oauth_token_expiry with
        | none => (none : Option Int)
        | some (ExpiryField.es s) => parseIsoSeconds (pyReplaceZ s.data)
        | some (ExpiryField.edt t) => some t) = none := by
    rcases hexp with h | ⟨s, hs, hp⟩
    · rw [h]
    · rw [hs]; exact hp
  constructor
  · unfold refreshOauthTokenIfNeeded
    rw [hoa]
    simp only [Bool.not_true, Bool.false_eq_true, if_false]
    rw [hnone]
    simp only [isTokenExpired, Bool.not_true, Bool.false_eq_true, if_false]
    split
    · rfl
    · split
      · rfl
      · rfl
  · intro hok
    unfold processIntegrationEmails
    rw [hoa, hok]
    simp

/-- C10 witness: an unparseable expiry string with a failing token endpoint
attempts the refresh and retrieves nothing. -/
theorem C10_missing_expiry_always_refreshes_witness :
    (refreshOauthTokenIfNeeded "cid" "cs" (TokenEndpointResult.httpErr 400 "bad")
        true 0 integBadExpiry).exchangeAttempted = true ∧
    processIntegrationEmails "cid" "cs"
        (fun _ => TokenEndpointResult.httpErr 400 "bad") true 0
        (fun _ => ⟨[msgCash], false⟩) integBadExpiry = [] := by
  have h := C10_missing_expiry_always_refreshes "cid" "cs"
    (TokenEndpointResult.httpErr 400 "bad") true 0 (fun _ => ⟨[msgCash], false⟩)
    integBadExpiry (by decide)
    (Or.inr ⟨"not-a-date", rfl, by decide⟩)
  exact ⟨h.1, h.2 (by decide)⟩

theorem hexN_cons_false {c : Char} (h : isHexC c = false) (n : Nat) (cs : Cs) :
    hexN (n + 1) (c :: cs) = none := by
  simp [hexN, h]

theorem uuidShaped_hash (r : Cs) : uuidShaped ('#' :: r) = false := by
  have h : isHexC '#' = false := by decide
  have h8 : hexN 8 ('#' :: r) = none := hexN_cons_false h 7 r
  simp [uuidShaped, h8]

theorem uuidShaped_stage3Fix (t : Cs) (h : uuidShaped t = false) :
    uuidShaped (stage3Fix t) = false := by
  unfold stage3Fix
  split
  · exact uuidShaped_hash _
  · exact uuidShaped_hash _
  · exact h

/-- C5 counterexample: a UUID-shaped token under an explicit Transaction
number label is returned by the extractor, so the claim that no extraction
path ever yields a UUID-shaped transaction number is false. -/
theorem C5_counterexample :
    cashExtractTxnNumber uuidBody [] = some uuidTok ∧
    uuidShaped uuidTok = true := by
  constructor
  · decide
  · decide

theorem stage3Step_no_uuid (found next : Option Cs)
    (hnext : ∀ t, next = some t → uuidShaped t = false) :
    ∀ t, stage3Step found next = some t → uuidShaped t = false := by
  intro t h
  unfold stage3Step at h
  split at h
  · rename_i t0
    split at h
    · exact hnext t h
    · rename_i hu
      cases h
      exact uuidShaped_stage3Fix t0 (by simpa using hu)
  · exact hnext t h

/-- C5 amended: the UUID rejection holds on the pattern-fallback,
permissive-label and URL-embedded extraction paths; the explicit-label
paths (same line or next line) do not reject UUID-shaped values. -/
theorem C5_amended_fallback_paths_reject_uuid :
    (∀ (content t : Cs), txnStage3 content = some t → uuidShaped t = false) ∧
    (∀ (content t : Cs), txnStage4 content = some (some t) → uuidShaped t = false) ∧
    (∀ (content t : Cs), txnStage5 content = some t → uuidShaped t = false) := by
  refine ⟨?_, ?_, ?_⟩
  · intro content t h
    unfold txnStage3 at h
    refine stage3Step_no_uuid _ _ ?_ t h
    refine stage3Step_no_uuid _ _ ?_
    refine stage3Step_no_uuid _ _ ?_
    refine stage3Step_no_uuid _ _ ?_
    intro t2 h2
    cases h2
  · intro content t h
    unfold txnStage4 at h
    split at h
    · rename_i t0 hc
      simp only [] at h
      split at h
      · simp at h
      · rename_i hu
        rw [Option.some.injEq, Option.some.injEq] at h
        subst h
        split
        · exact uuidShaped_hash _
        · simpa using hu
    · cases h
  · intro content t h
    unfold txnStage5 at h
    split at h
    · rename_i t0 hc
      split at h
      · cases h
      · rename_i hu
        rw [Option.some.injEq] at h
        subst h
        simpa using hu
    · cases h

/-- C5 witness: concrete contents exercising the three rejecting paths. -/
theorem C5_amended_fallback_paths_reject_uuid_witness :
    uuidShaped "#D-QQENK44E".data = false ∧
    uuidShaped "77-AB".data = false ∧
    uuidShaped "abcdef1".data = false :=
  ⟨C5_amended_fallback_paths_reject_uuid.1 "#D-QQENK44E".data _ (by decide),
   C5_amended_fallback_paths_reject_uuid.2.1 "Transaction number 77-AB".data _
     (by decide),
   C5_amended_fallback_paths_reject_uuid.2.2 "/transaction/abcdef1".data _
     (by decide)⟩

theorem fetchLoopMark_yield (conn : ImapConn) :
    ∀ ids : List String,
      (fetchLoopMark conn ids).1 = (fetchLoopMark conn ids).2.filterMap conn.fetch ∧
      (fetchLoopMark conn ids).2.length = (fetchLoopMark conn ids).1.length := by
  intro ids
  induction ids with
  | nil => simp [fetchLoopMark]
  | cons i is ih =>
    unfold fetchLoopMark
    split
    · rename_i m hm
      simp [List.filterMap_cons, hm, ih.1, ih.2]
    · exact ih

theorem fetchLoopNoMark_marks_nothing (conn : ImapConn) :
    ∀ ids : List String, (fetchLoopNoMark conn ids).2 = [] := by
  intro ids
  induction ids with
  | nil => simp [fetchLoopNoMark]
  | cons i is ih =>
    unfold fetchLoopNoMark
    split
    · exact ih
    · exact ih

theorem contentLoop_yield (conn : ImapConn) (text : String) (limit : Option Nat) :
    ∀ (ids : List String) (found : Nat),
      (contentLoop conn text limit found ids).1 =
        (contentLoop conn text limit found ids).2.filterMap conn.fetch ∧
      (contentLoop conn text limit found ids).2.length =
        (contentLoop conn text limit found ids).1.length := by
  intro ids
  induction ids with
  | nil => intro found; simp [contentLoop]
  | cons i is ih =>
    intro found
    unfold contentLoop
    split
    · rename_i m hm
      split
      · split
        · simp [List.filterMap_cons, hm]
        · simp [List.filterMap_cons, hm, (ih (found + 1)).1, (ih (found + 1)).2]
      · exact ih found
    · exact ih found

/-- C6 counterexample: a sender search yields a message without issuing any
mark-as-read flag store, so the claim that all four search operations mark
every yielded message is false. -/
theorem C6_counterexample :
    (searchEmailsBySender connC6 "cash@square.com" none).1 = [msgCash] ∧
    (searchEmailsBySender connC6 "cash@square.com" none).2 = [] ∧
    (searchEmailsBySenderDateRange connC6 "cash@square.com"
        ⟨⟨2024, 6, 1⟩, 0, 0, 0⟩ none).1 = [msgCash] ∧
    (searchEmailsBySenderDateRange connC6 "cash@square.com"
        ⟨⟨2024, 6, 1⟩, 0, 0, 0⟩ none).2 = [] := by
  refine ⟨?_, ?_, ?_, ?_⟩ <;> decide

/-- C6 amended: the subject and content searches issue a mark-as-read for
exactly the messages they yield (each yielded message is the fetch of a
marked id); the sender and sender-date-range searches never issue one. -/
theorem C6_amended_only_subject_content_mark :
    ∀ (conn : ImapConn) (text sender : String) (limit : Option Nat)
      (startD : PyDateTime) (endD : Option PyDateTime),
      ((searchEmailsBySubject conn text limit).1 =
        (searchEmailsBySubject conn text limit).2.filterMap conn.fetch) ∧
      ((searchEmailsBySubject conn text limit).2.length =
        (searchEmailsBySubject conn text limit).1.length) ∧
      ((searchEmailsByContent conn text limit).1 =
        (searchEmailsByContent conn text limit).2.filterMap conn.fetch) ∧
      ((searchEmailsByContent conn text limit).2.length =
        (searchEmailsByContent conn text limit).1.length) ∧
      (searchEmailsBySender conn sender limit).2 = [] ∧
      (searchEmailsBySenderDateRange conn sender startD endD).2 = [] := by
  intro conn text sender limit startD endD
  refine ⟨?_, ?_, ?_, ?_, ?_, ?_⟩
  · exact (fetchLoopMark_yield conn _).1
  · exact (fetchLoopMark_yield conn _).2
  · exact (contentLoop_yield conn text limit _ 0).1
  · exact (contentLoop_yield conn text limit _ 0).2
  · exact fetchLoopNoMark_marks_nothing conn _
  · exact fetchLoopNoMark_marks_nothing conn _

theorem pel_aux_invariant (findP : EmailMessage → Option ParserTag)
    (parse : ParserTag → EmailMessage → Option TxnData) :
    ∀ (emails : List EmailMessage) (seen : List String),
      (processEmailListAux findP parse emails seen).processed_emails
          = emails.length ∧
      (processEmailListAux findP parse emails seen).new_transactions
          + (processEmailListAux findP parse emails seen).duplicate_transactions.length
          = parsedOkCount findP parse emails ∧
      (processEmailListAux findP parse emails seen).transactions.length
          = (processEmailListAux findP parse emails seen).new_transactions := by
  intro emails
  induction emails with
  | nil => intro seen; simp [processEmailListAux, parsedOkCount]
  | cons m ms ih =>
    intro seen
    have h1 := (ih seen).1
    have h2 := (ih seen).2.1
    have h3 := (ih seen).2.2
    simp only [parsedOkCount] at h2
    unfold processEmailListAux
    split
    next hf =>
      have hok : parsedOk findP parse m = false := by simp [parsedOk, hf]
      refine ⟨?_, ?_, ?_⟩
      · simpa [bumpErr] using h1
      · simp [bumpErr, parsedOkCount, List.filter_cons, hok]
        omega
      · simpa [bumpErr] using h3
    next p hf =>
      split
      next hp =>
        have hok : parsedOk findP parse m = false := by simp [parsedOk, hf, hp]
        refine ⟨?_, ?_, ?_⟩
        · simpa [bumpErr] using h1
        · simp [bumpErr, parsedOkCount, List.filter_cons, hok]
          omega
        · simpa [bumpErr] using h3
      next d hp =>
        split
        next e hg =>
          have hok : parsedOk findP parse m = false := by
            simp [parsedOk, hf, hp, hg]
          refine ⟨?_, ?_, ?_⟩
          · simpa [bumpErr] using h1
          · simp [bumpErr, parsedOkCount, List.filter_cons, hok]
            omega
          · simpa [bumpErr] using h3
        next tid hg =>
          have hok : parsedOk findP parse m = true := by
            simp [parsedOk, hf, hp, hg]
          split
          next hdup =>
            refine ⟨?_, ?_, ?_⟩
            · simpa [bumpDup] using h1
            · simp [bumpDup, parsedOkCount, List.filter_cons, hok]
              omega
            · simpa [bumpDup] using h3
          next hdup =>
            have g1 := (ih (if !tid.isEmpty then tid :: seen else seen)).1
            have g2 := (ih (if !tid.isEmpty then tid :: seen else seen)).2.1
            have g3 := (ih (if !tid.isEmpty then tid :: seen else seen)).2.2
            simp only [parsedOkCount, Bool.not_eq_true'] at g2
            refine ⟨?_, ?_, ?_⟩
            · simpa [bumpNew] using g1
            · simp [bumpNew, parsedOkCount, List.filter_cons, hok]
              omega
            · simpa [bumpNew] using g3
        next hg =>
          have hok : parsedOk findP parse m = true := by
            simp [parsedOk, hf, hp, hg]
          refine ⟨?_, ?_, ?_⟩
          · simpa [bumpNew] using h1
          · simp [bumpNew, parsedOkCount, List.filter_cons, hok]
            omega
          · simpa [bumpNew] using h3

theorem multiPairs_no_dups (findP : EmailMessage → Option ParserTag)
    (parse : ParserTag → EmailMessage → Option TxnData) :
    ∀ pairs : List (EmailIntegration × EmailMessage),
      (multiProcessPairs findP parse pairs).duplicate_transactions = [] := by
  intro pairs
  induction pairs with
  | nil => rfl
  | cons pr ps ih =>
    unfold multiProcessPairs
    rcases pr with ⟨integ, m⟩
    split <;> simpa [mBumpNew, mBumpErr] using ih

/-- C2 counterexample: the multi-account run over two messages with the
same transaction number emits both as new and records no duplicate. -/
theorem C2_counterexample :
    runC2.processed_emails = 2 ∧
    runC2.new_transactions = 2 ∧
    runC2.duplicate_transactions = [] ∧
    runC2.transactions.map (fun e =>
      match e.data with
      | TxnData.dict t => t.transaction_number
      | TxnData.obj _ => "") = ["#D-ABC123", "#D-ABC123"] := by
  refine ⟨?_, ?_, ?_, ?_⟩ <;> decide

/-- C2 amended: in the single-account run loop, new plus duplicates equals
the successfully matched, parsed and counted messages, a repeated nonempty
transaction id is recorded as a duplicate and excluded, and duplicates are
excluded from the emitted list; the multi-account run performs no dedup
and its duplicate list is always empty. -/
theorem C2_amended_dedup_single_account_only :
    (∀ (findP : EmailMessage → Option ParserTag)
       (parse : ParserTag → EmailMessage → Option TxnData)
       (emails : List EmailMessage),
      (processEmailList findP parse emails).processed_emails = emails.length ∧
      (processEmailList findP parse emails).new_transactions
          + (processEmailList findP parse emails).duplicate_transactions.length
          = parsedOkCount findP parse emails ∧
      (processEmailList findP parse emails).transactions.length
          = (processEmailList findP parse emails).new_transactions) ∧
    (∀ (findP : EmailMessage → Option ParserTag)
       (parse : ParserTag → EmailMessage → Option TxnData)
       (m1 m2 : EmailMessage) (p1 p2 : ParserTag) (t1 t2 : CashTx),
      findP m1 = some p1 → parse p1 m1 = some (TxnData.dict t1) →
      findP m2 = some p2 → parse p2 m2 = some (TxnData.dict t2) →
      t2.transaction_id = t1.transaction_id → t1.transaction_id ≠ "" →
      (processEmailList findP parse [m1, m2]).new_transactions = 1 ∧
      (processEmailList findP parse [m1, m2]).duplicate_transactions
          = [t2.transaction_id] ∧
      (processEmailList findP parse [m1, m2]).transactions = [TxnData.dict t1]) ∧
    (∀ (findP : EmailMessage → Option ParserTag)
       (parse : ParserTag → EmailMessage → Option TxnData)
       (pairs : List (EmailIntegration × EmailMessage)),
      (multiProcessPairs findP parse pairs).duplicate_transactions = []) := by
  refine ⟨?_, ?_, ?_⟩
  · intro findP parse emails
    exact pel_aux_invariant findP parse emails []
  · intro findP parse m1 m2 p1 p2 t1 t2 h1 h2 h3 h4 heq hne
    have hie : t1.transaction_id.isEmpty = false := by
      rw [Bool.eq_false_iff]
      intro hcon
      exact hne ((String.isEmpty_iff _).mp hcon)
    refine ⟨?_, ?_, ?_⟩ <;>
      simp [processEmailList, processEmailListAux, h1, h2, h3, h4, pyGetTxnId,
        heq, hie, bumpNew, bumpDup, List.contains]
  · intro findP parse pairs
    exact multiPairs_no_dups findP parse pairs

/-- C2 witness: the embedded chain over the duplicated Cash App message
classifies the second occurrence as a duplicate in the single-account
loop. -/
theorem C2_amended_dedup_single_account_only_witness :
    (processEmailList findParserForEmail (fun p m => chainParse p now0 m)
        [msgCash, msgCash]).new_transactions = 1 ∧
    (processEmailList findParserForEmail (fun p m => chainParse p now0 m)
        [msgCash, msgCash]).duplicate_transactions = [cashTxA.transaction_id] ∧
    (processEmailList findParserForEmail (fun p m => chainParse p now0 m)
        [msgCash, msgCash]).transactions = [TxnData.dict cashTxA] :=
  C2_amended_dedup_single_account_only.2.1 findParserForEmail
    (fun p m => chainParse p now0 m) msgCash msgCash ParserTag.cashapp
    ParserTag.cashapp cashTxA cashTxA (by decide) (by decide) (by decide)
    (by decide) rfl (by decide)

theorem multiPairs_cons (findP : EmailMessage → Option ParserTag)
    (parse : ParserTag → EmailMessage → Option TxnData)
    (integ : EmailIntegration) (m : EmailMessage)
    (ps : List (EmailIntegration × EmailMessage)) :
    multiProcessPairs findP parse ((integ, m) :: ps)
      = match processEmailMulti findP parse m integ with
        | some e => mBumpNew e (multiProcessPairs findP parse ps)
        | none => mBumpErr (multiProcessPairs findP parse ps) := rfl

theorem multiPairs_append (findP : EmailMessage → Option ParserTag)
    (parse : ParserTag → EmailMessage → Option TxnData) :
    ∀ xs ys : List (EmailIntegration × EmailMessage),
      (multiProcessPairs findP parse (xs ++ ys)).processed_emails
          = (multiProcessPairs findP parse xs).processed_emails
            + (multiProcessPairs findP parse ys).processed_emails ∧
      (multiProcessPairs findP parse (xs ++ ys)).new_transactions
          = (multiProcessPairs findP parse xs).new_transactions
            + (multiProcessPairs findP parse ys).new_transactions ∧
      (multiProcessPairs findP parse (xs ++ ys)).errors
          = (multiProcessPairs findP parse xs).errors
            + (multiProcessPairs findP parse ys).errors ∧
      (multiProcessPairs findP parse (xs ++ ys)).erros_entries
          = (multiProcessPairs findP parse xs).erros_entries
            + (multiProcessPairs findP parse ys).erros_entries ∧
      (multiProcessPairs findP parse (xs ++ ys)).transactions
          = (multiProcessPairs findP parse xs).transactions
            ++ (multiProcessPairs findP parse ys).transactions := by
  intro xs ys
  induction xs with
  | nil => simp [multiProcessPairs]
  | cons pr ps ih =>
    rcases pr with ⟨integ, m⟩
    simp only [List.cons_append, multiPairs_cons]
    rcases hpe : processEmailMulti findP parse m integ with _ | e <;>
      simp [mBumpNew, mBumpErr, ih.1, ih.2.1, ih.2.2.1, ih.2.2.2.1, ih.2.2.2.2,
        Nat.add_assoc, Nat.add_comm, Nat.add_left_comm]

theorem multiPairs_single (findP : EmailMessage → Option ParserTag)
    (parse : ParserTag → EmailMessage → Option TxnData)
    (i : EmailIntegration) :
    ∀ msgs : List EmailMessage,
      (multiProcessPairs findP parse (msgs.map (fun m => (i, m)))).processed_emails
          = msgs.length ∧
      (multiProcessPairs findP parse (msgs.map (fun m => (i, m)))).new_transactions
          = (msgs.filter
              (fun m => (processEmailMulti findP parse m i).isSome)).length ∧
      (multiProcessPairs findP parse (msgs.map (fun m => (i, m)))).erros_entries
          = (msgs.filter
              (fun m => (processEmailMulti findP parse m i).isNone)).length ∧
      (multiProcessPairs findP parse (msgs.map (fun m => (i, m)))).errors
          = (msgs.filter
              (fun m => (processEmailMulti findP parse m i).isNone)).length := by
  intro msgs
  induction msgs with
  | nil => simp [multiProcessPairs]
  | cons m ms ih =>
    simp only [List.map_cons, multiPairs_cons]
    rcases hpe : processEmailMulti findP parse m i with _ | e <;>
      refine ⟨?_, ?_, ?_, ?_⟩ <;>
        simp [mBumpNew, mBumpErr, List.filter_cons, hpe, ih.1, ih.2.1,
          ih.2.2.1, ih.2.2.2]

/-- C3 counterexample: with three integrations where the second raises
during retrieval, the first and third still contribute their results, but
the run records zero failure entries for the second, not exactly one. -/
theorem C3_counterexample :
    runC3.transactions.map (fun e => e.integration_id) = [some "A", some "C"] ∧
    runC3.processed_emails = 2 ∧
    runC3.new_transactions = 2 ∧
    runC3.errors = 0 ∧
    runC3.erros_entries = 0 := by
  refine ⟨?_, ?_, ?_, ?_, ?_⟩ <;> decide

/-- C3 amended: every integration is attempted and contributes its yielded
messages to the aggregate independently of the other integrations, but the
run-level error and Erros entries count only per-message parse failures:
an integration whose refresh or retrieval fails contributes no failure
entry to the RunResult (the failure is only logged). -/
theorem C3_amended_no_failure_entries :
    ∀ (findP : EmailMessage → Option ParserTag)
      (parse : ParserTag → EmailMessage → Option TxnData)
      (cid csec : String) (endpoint : EmailIntegration → TokenEndpointResult)
      (storeOk : Bool) (now : Int)
      (retrieve : EmailIntegration → RetrOutcome)
      (integs : List EmailIntegration),
      (multiProcessEmailsBySender findP parse cid csec endpoint storeOk now
          retrieve integs).processed_emails
        = (integs.map (fun i =>
            (processIntegrationEmails cid csec endpoint storeOk now retrieve
              i).length)).sum ∧
      (multiProcessEmailsBySender findP parse cid csec endpoint storeOk now
          retrieve integs).new_transactions
        = (integs.map (fun i =>
            ((processIntegrationEmails cid csec endpoint storeOk now retrieve
                i).filter
              (fun m => (processEmailMulti findP parse m i).isSome)).length)).sum ∧
      (multiProcessEmailsBySender findP parse cid csec endpoint storeOk now
          retrieve integs).erros_entries
        = (integs.map (fun i =>
            ((processIntegrationEmails cid csec endpoint storeOk now retrieve
                i).filter
              (fun m => (processEmailMulti findP parse m i).isNone)).length)).sum ∧
      (multiProcessEmailsBySender findP parse cid csec endpoint storeOk now
          retrieve integs).errors
        = (integs.map (fun i =>
            ((processIntegrationEmails cid csec endpoint storeOk now retrieve
                i).filter
              (fun m => (processEmailMulti findP parse m i).isNone)).length)).sum := by
  intro findP parse cid csec endpoint storeOk now retrieve integs
  induction integs with
  | nil =>
    simp [multiProcessEmailsBySender, processAllIntegrationsEmails,
      multiProcessPairs]
  | cons i is ih =>
    have happ := multiPairs_append findP parse
      ((processIntegrationEmails cid csec endpoint storeOk now retrieve i).map
        (fun m => (i, m)))
      (processAllIntegrationsEmails cid csec endpoint storeOk now retrieve is)
    have hsingle := multiPairs_single findP parse i
      (processIntegrationEmails cid csec endpoint storeOk now retrieve i)
    refine ⟨?_, ?_, ?_, ?_⟩ <;>
      simp only [multiProcessEmailsBySender, processAllIntegrationsEmails,
        List.flatMap_cons, List.map_cons, List.sum_cons] at ih happ hsingle ⊢ <;>
      omega


/-! ### C1 and C4: extraction-only transaction numbers and the validation
gate -/

theorem stringMk_ne_empty (l : Cs) (h : l.isEmpty = false) :
    String.mk l ≠ "" := by
  cases l with
  | nil => simp at h
  | cons c cs =>
    intro hc
    have hd := congrArg String.data hc
    simp at hd

theorem pyTruthy_getD_ne (o : Option Cs) (h : pyTruthy o = true) :
    String.mk (o.getD []) ≠ "" := by
  cases o with
  | none => simp [pyTruthy] at h
  | some s =>
    simp [pyTruthy] at h
    intro hc
    have hd := congrArg String.data hc
    simp at hd
    exact h hd

/-- The HTML fallback block never turns a truthy sender into an empty or
absent one: every override it applies is guarded by a nonempty candidate. -/
theorem htmlFallback_sender_truthy (m : EmailMessage) (subject : Cs)
    (txn sender recipient : Option Cs) (h : pyTruthy sender = true) :
    pyTruthy (cashHtmlFallback m subject txn sender recipient).2.1 = true := by
  unfold cashHtmlFallback
  split
  · exact h
  · split
    · exact h
    · dsimp only
      repeat' split
      all_goals simp_all [pyTruthy]

/-- Inversion of the accepted Cash App parse: the transaction id is the
extracted transaction number, both nonempty; the sender is nonempty, the
amount positive, the provider tag the cashapp literal, and the validation
gate passed on exactly these fields. -/
theorem cashFinish_some_inv (now : PyDateTime) (m : EmailMessage)
    (subject body parsingBody : Cs) (amount : ℚ) (sender6 recip6 : Option Cs)
    (r : CashTx)
    (h : cashFinish now m subject body parsingBody amount sender6 recip6
        = some r) :
    r.transaction_id = r.transaction_number ∧
    r.transaction_number ≠ "" ∧
    r.sender ≠ "" ∧
    0 < r.amount ∧
    r.source_provider = "cashapp" ∧
    validateTransactionData
      { transaction_id := some r.transaction_id, sender := some r.sender,
        amount := some r.amount, source_provider := some r.source_provider }
      = true := by
  unfold cashFinish at h
  split at h
  · exact absurd h (by simp)
  next hpt =>
    have hp2 : pyTruthy sender6 = true ∧ pyTruthy recip6 = true := by
      simpa using hpt
    dsimp only at h
    generalize hfb : cashHtmlFallback m subject
      (cashExtractTxnNumber parsingBody subject) sender6 recip6 = fb at h
    obtain ⟨txn1, sender7, recip7⟩ := fb
    try dsimp only at h
    split at h
    · exact absurd h (by simp)
    next t =>
      split at h
      next hte =>
        exact absurd h (by simp)
      next hte =>
        have hte2 : t.isEmpty = false := by simpa using hte
        try dsimp only at h
        split at h
        next hval =>
          have hs7 : pyTruthy sender7 = true := by
            have hmono := htmlFallback_sender_truthy m subject
              (cashExtractTxnNumber parsingBody subject) sender6 recip6 hp2.1
            rw [hfb] at hmono
            simpa using hmono
          have hval0 := hval
          simp [validateTransactionData] at hval
          have hr := Option.some.inj h
          subst hr
          refine ⟨rfl, stringMk_ne_empty t hte2, ?_, ?_, rfl, ?_⟩
          · exact pyTruthy_getD_ne sender7 hs7
          · exact hval
          · exact hval0
        next hval =>
          exact absurd h (by simp)

theorem cashParse_some_inv (now : PyDateTime) (m : EmailMessage) (r : CashTx)
    (h : cashParseTransaction now m = some r) :
    r.transaction_id = r.transaction_number ∧
    r.transaction_number ≠ "" ∧
    r.sender ≠ "" ∧
    0 < r.amount ∧
    r.source_provider = "cashapp" ∧
    validateTransactionData
      { transaction_id := some r.transaction_id, sender := some r.sender,
        amount := some r.amount, source_provider := some r.source_provider }
      = true := by
  unfold cashParseTransaction at h
  dsimp only at h
  split at h
  · exact absurd h (by simp)
  next amount hamt =>
    split at h
    · exact absurd h (by simp)
    next hz =>
      generalize hres : cashResolve m ((getHdrD m.subjectH "").data)
        (extractEmailBody m)
        ((scanSuffix fwdMarkerAt (extractEmailBody m)).getD
          (extractEmailBody m))
        (extractEmailBody m ++ ' ' :: (getHdrD m.subjectH "").data) = p at h
      obtain ⟨sender6, recip6⟩ := p
      try dsimp only at h
      exact cashFinish_some_inv now m _ _ _ amount _ _ r h

/-- Inversion of the accepted generic parse: the transaction id is always
the synthesized md5 of sender, recipient, amount and date, and only a zero
amount aborts. -/
theorem genParse_some_inv (now : PyDateTime) (m : EmailMessage)
    (g : GenTransaction) (h : genParseTransaction now m = some g) :
    g.transaction_id
      = genGenerateTransactionId g.sender.data g.recipient.data g.amount
          g.email_date ∧
    g.amount ≠ 0 := by
  unfold genParseTransaction at h
  dsimp only at h
  split at h
  · exact absurd h (by simp)
  next amount hamt =>
    split at h
    next hz =>
      exact absurd h (by simp)
    next hz =>
      have hzq : amount ≠ 0 := by
        intro he
        exact hz (by simp [he])
      have hg := Option.some.inj h
      subst hg
      exact ⟨rfl, hzq⟩

/-- C1 counterexample: the payment email msgVenmo has an amount but no
transaction number anywhere, is claimed by the generic fallback parser,
and is accepted as a record whose cashapp_transaction_number is None and
whose transaction id is the md5 hash of other fields. -/
theorem C1_counterexample :
    findParserForEmail msgVenmo = some ParserTag.genericPayment ∧
    genExtractTxnNumber (extractEmailBody msgVenmo)
      (getHdrD msgVenmo.subjectH "").data = none ∧
    genParseTransaction now0 msgVenmo = some gVenmo ∧
    gVenmo.cashapp_transaction_number = none ∧
    gVenmo.transaction_id
      = Md5Hex.mk "You_Jane Doe Money update_25.0_2026-01-02 03:04:05" := by
  refine ⟨?_, ?_, ?_, ?_, ?_⟩ <;> decide

/-- C1 amended: the specific Cash App parser accepts only records whose
transaction id equals the extracted nonempty transaction number (absence
of a number is parse failure), while the generic fallback parser always
synthesizes its transaction id as the md5 hash of sender, recipient,
amount and date, and accepts records with no extracted number. -/
theorem C1_amended_cash_extracted_generic_synthesized :
    (∀ (now : PyDateTime) (m : EmailMessage) (r : CashTx),
      cashParseTransaction now m = some r →
        r.transaction_id = r.transaction_number ∧
        r.transaction_number ≠ "") ∧
    (∀ (now : PyDateTime) (m : EmailMessage) (g : GenTransaction),
      genParseTransaction now m = some g →
        g.transaction_id
          = genGenerateTransactionId g.sender.data g.recipient.data g.amount
              g.email_date) := by
  refine ⟨?_, ?_⟩
  · intro now m r h
    exact ⟨(cashParse_some_inv now m r h).1,
      (cashParse_some_inv now m r h).2.1⟩
  · intro now m g h
    exact (genParse_some_inv now m g h).1

/-- C1 witness: the amended theorem applied to the concrete Cash App
message and to the concrete generic payment message. -/
theorem C1_amended_cash_extracted_generic_synthesized_witness :
    (cashTxA.transaction_id = cashTxA.transaction_number ∧
      cashTxA.transaction_number ≠ "") ∧
    gVenmo.transaction_id
      = genGenerateTransactionId gVenmo.sender.data gVenmo.recipient.data
          gVenmo.amount gVenmo.email_date :=
  ⟨C1_amended_cash_extracted_generic_synthesized.1 now0 msgCash cashTxA
      (by decide),
   C1_amended_cash_extracted_generic_synthesized.2 now0 msgVenmo gVenmo
      (by decide)⟩

/-- C4 counterexample: the generic parser accepts msgDotCom as a record
whose provider tag is the empty string and whose transaction number is
None: no validation gate ran on its output. -/
theorem C4_counterexample :
    findParserForEmail msgDotCom = some ParserTag.genericPayment ∧
    genParseTransaction now0 msgDotCom = some gDotCom ∧
    gDotCom.source_provider = "" ∧
    gDotCom.cashapp_transaction_number = none := by
  refine ⟨?_, ?_, ?_, ?_⟩ <;> decide

/-- C4 amended: the validation gate runs only on the Cash App parser's
output, where every accepted record passes it with a nonempty sender and
transaction number, a positive amount and the cashapp provider tag; the
generic parser returns its record without the gate, and only a missing or
zero amount aborts its parse. -/
theorem C4_amended_gate_cashapp_only :
    (∀ (now : PyDateTime) (m : EmailMessage) (r : CashTx),
      cashParseTransaction now m = some r →
        validateTransactionData
          { transaction_id := some r.transaction_id, sender := some r.sender,
            amount := some r.amount,
            source_provider := some r.source_provider } = true ∧
        0 < r.amount ∧ r.sender ≠ "" ∧ r.transaction_number ≠ "" ∧
        r.source_provider = "cashapp") ∧
    (∀ (now : PyDateTime) (m : EmailMessage) (g : GenTransaction),
      genParseTransaction now m = some g → g.amount ≠ 0) := by
  refine ⟨?_, ?_⟩
  · intro now m r h
    obtain ⟨h1, h2, h3, h4, h5, h6⟩ := cashParse_some_inv now m r h
    exact ⟨h6, h4, h3, h2, h5⟩
  · intro now m g h
    exact (genParse_some_inv now m g h).2

/-- C4 witness: the amended theorem applied to the concrete Cash App
message and to the concrete generic payment message. -/
theorem C4_amended_gate_cashapp_only_witness :
    (validateTransactionData
      { transaction_id := some cashTxA.transaction_id,
        sender := some cashTxA.sender, amount := some cashTxA.amount,
        source_provider := some cashTxA.source_provider } = true ∧
      0 < cashTxA.amount ∧ cashTxA.sender ≠ "" ∧
      cashTxA.transaction_number ≠ "" ∧
      cashTxA.source_provider = "cashapp") ∧
    gDotCom.amount ≠ 0 :=
  ⟨C4_amended_gate_cashapp_only.1 now0 msgCash cashTxA (by decide),
   C4_amended_gate_cashapp_only.2 now0 msgDotCom gDotCom (by decide)⟩

end Innovest
